import Mathlib

/-
Verification of the lexical analyzer generated in src/parser.c of
tree-sitter-applescript.  The only algorithmic content of the repository is
the function ts_lex (src/parser.c lines 122-1327): a deterministic state
machine over states 0..128 that classifies one token per call, together with
the trivial item loop encoded by the parse tables (a source file is a flat
sequence of tokens).  We embed the state machine shallowly: characters are
Unicode code points as Nat, the transition table dfaStep and the acceptance
table dfaAccept are transcribed state by state from the C switch, and runDFA
mirrors the START_LEXER / ADVANCE / ACCEPT_TOKEN driver: on entering a state
the accepted token (if any) and its end position are recorded, then the
lookahead is consulted; when no branch fires the last recorded token is the
result, and the cursor resumes at its end (mark_end semantics).
-/

namespace ASLex

/-- A lexer state of ts_lex: the C switch has cases 0..128.  Characters are
represented throughout as their Unicode code points (the int32 lookahead
of ts_lex), as plain Nat. -/
abbrev St := Fin 129

/-- Token categories, from enum ts_symbol_identifiers (parser.c lines 18-29).
endTok is ts_builtin_sym_end, the synthetic end-of-input marker. -/
inductive Sym where
  | endTok
  | comment
  | stringTok
  | number
  | keyword
  | operator
  | punctuation
  | identifier
deriving DecidableEq

/-- c is an uppercase letter with code u, or the matching lowercase letter:
every letter test in ts_lex pairs the two cases. -/
abbrev isUL (c u : Nat) : Prop := c = u ∨ c = u + 32

/-- Identifier continuation characters: 0-9, A-Z, underscore, a-z.  This is
the fallback range test repeated in every identifier state of ts_lex. -/
def isAlnum (c : Nat) : Bool :=
  decide ((48 ≤ c ∧ c ≤ 57) ∨ (65 ≤ c ∧ c ≤ 90) ∨ c = 95 ∨ (97 ≤ c ∧ c ≤ 122))

/-- Whitespace skipped by state 0: tab through carriage return, and space
(parser.c lines 175-176, the SKIP(0) branch). -/
def isWs (c : Nat) : Bool := decide ((9 ≤ c ∧ c ≤ 13) ∨ c = 32)

/-- The per-state transition bodies of ts_lex, one definition per C case,
in source order; the branch order inside each state follows the C source, so
a branch shadowed by an earlier one is unreachable exactly as in the source.
The SKIP(0) whitespace branch of state 0 returns none here: skipping is
performed by the leading whitespace loop in scanOne, which is the only place
state 0 is entered.  The eof branch of state 0 (ADVANCE(6), the end token)
is likewise handled in scanOne; no other branch targets state 6.  States
108 and above keep the same letter-then-fallback shape; state 128 is the
plain identifier continuation state. -/
def lexState0 (c : Nat) : Option St :=
  if c = 34 then some 2
  else if c = 35 then some 1
  else if c = 40 then some 18
  else if c = 45 then some 15
  else if c = 47 then some 16
  else if c = 60 then some 16
  else if c = 62 then some 16
  else if isUL c 65 then some 32
  else if isUL c 66 then some 126
  else if isUL c 67 then some 19
  else if isUL c 68 then some 51
  else if isUL c 69 then some 65
  else if isUL c 70 then some 21
  else if isUL c 71 then some 69
  else if isUL c 73 then some 48
  else if isUL c 76 then some 82
  else if isUL c 77 then some 36
  else if isUL c 78 then some 83
  else if isUL c 79 then some 127
  else if isUL c 80 then some 99
  else if isUL c 82 then some 38
  else if isUL c 83 then some 29
  else if isUL c 84 then some 40
  else if isUL c 85 then some 79
  else if isUL c 86 then some 22
  else if isUL c 87 then some 50
  else if isWs c then none
  else if (39 ≤ c ∧ c ≤ 41) ∨ c = 44 ∨ c = 58 ∨ c = 91 ∨ c = 93 ∨ c = 123 ∨ c = 125 then
  some 17
  else if (38 ≤ c ∧ c ≤ 43) ∨ c = 61 ∨ c = 94 ∨ c = 172 ∨ c = 8800 ∨ c = 8804 ∨ c = 8805 then
  some 14
  else if 48 ≤ c ∧ c ≤ 57 then some 10
  else if (72 ≤ c ∧ c ≤ 90) ∨ c = 95 ∨ (104 ≤ c ∧ c ≤ 122) then some 128
  else none

def lexState1 (c : Nat) : Option St := if c = 33 then some 8 else none

def lexState2 (c : Nat) : Option St := if c = 34 then some 9 else if c ≠ 0 then some 2 else none

def lexState3 (c : Nat) : Option St :=
  if c = 41 then some 7 else if c = 42 then some 3 else if c ≠ 0 then some 4 else none

def lexState4 (c : Nat) : Option St := if c = 42 then some 3 else if c ≠ 0 then some 4 else none

def lexState5 (c : Nat) : Option St := if 48 ≤ c ∧ c ≤ 57 then some 11 else none

def lexState6 (_ : Nat) : Option St := none

def lexState7 (_ : Nat) : Option St := none

def lexState8 (c : Nat) : Option St := if c ≠ 0 ∧ c ≠ 10 then some 8 else none

def lexState9 (_ : Nat) : Option St := none

def lexState10 (c : Nat) : Option St :=
  if c = 46 then some 5 else if 48 ≤ c ∧ c ≤ 57 then some 10 else none

def lexState11 (c : Nat) : Option St := if 48 ≤ c ∧ c ≤ 57 then some 11 else none

def lexState12 (c : Nat) : Option St :=
  if isUL c 73 then some 78 else if isAlnum c then some 128 else none

def lexState13 (c : Nat) : Option St := if isAlnum c then some 128 else none

def lexState14 (_ : Nat) : Option St := none

def lexState15 (c : Nat) : Option St := if c = 45 then some 8 else none

def lexState16 (c : Nat) : Option St := if c = 61 then some 14 else none

def lexState17 (_ : Nat) : Option St := none

def lexState18 (c : Nat) : Option St := if c = 42 then some 4 else none

def lexState19 (c : Nat) : Option St :=
  if isUL c 65 then some 108 else if isUL c 79 then some 77
  else if isAlnum c then some 128 else none

def lexState20 (c : Nat) : Option St :=
  if isUL c 65 then some 114 else if isAlnum c then some 128 else none

def lexState21 (c : Nat) : Option St :=
  if isUL c 65 then some 66 else if isUL c 82 then some 25
  else if isAlnum c then some 128 else none

def lexState22 (c : Nat) : Option St :=
  if isUL c 65 then some 71 else if isUL c 69 then some 105
  else if isAlnum c then some 128 else none

def lexState23 (c : Nat) : Option St :=
  if isUL c 65 then some 64 else if isAlnum c then some 128 else none

def lexState24 (c : Nat) : Option St :=
  if isUL c 65 then some 57 else if isAlnum c then some 128 else none

def lexState25 (c : Nat) : Option St :=
  if isUL c 65 then some 75 else if isUL c 79 then some 73
  else if isAlnum c then some 128 else none

def lexState26 (c : Nat) : Option St :=
  if isUL c 65 then some 117 else if isAlnum c then some 128 else none

def lexState27 (c : Nat) : Option St :=
  if isUL c 66 then some 23 else if isAlnum c then some 128 else none

def lexState28 (c : Nat) : Option St :=
  if isUL c 67 then some 23 else if isAlnum c then some 128 else none

def lexState29 (c : Nat) : Option St :=
  if isUL c 67 then some 100 else if isUL c 69 then some 114
  else if isAlnum c then some 128 else none

def lexState30 (c : Nat) : Option St :=
  if isUL c 67 then some 26 else if isAlnum c then some 128 else none

def lexState31 (c : Nat) : Option St :=
  if isUL c 67 then some 104 else if isAlnum c then some 128 else none

def lexState32 (c : Nat) : Option St :=
  if isUL c 68 then some 34 else if isUL c 78 then some 33
  else if isUL c 80 then some 94 else if isAlnum c then some 128 else none

def lexState33 (c : Nat) : Option St :=
  if isUL c 68 then some 13 else if isAlnum c then some 128 else none

def lexState34 (c : Nat) : Option St :=
  if isUL c 68 then some 62 else if isAlnum c then some 128 else none

def lexState35 (c : Nat) : Option St :=
  if isUL c 68 then some 46 else if isAlnum c then some 128 else none

def lexState36 (c : Nat) : Option St :=
  if isUL c 69 then some 13 else if isUL c 73 then some 109
  else if isUL c 79 then some 33 else if isAlnum c then some 128 else none

def lexState37 (c : Nat) : Option St :=
  if isUL c 69 then some 13 else if isAlnum c then some 128 else none

def lexState38 (c : Nat) : Option St :=
  if isUL c 69 then some 92 else if isAlnum c then some 128 else none

def lexState39 (c : Nat) : Option St :=
  if isUL c 69 then some 125 else if isAlnum c then some 128 else none

def lexState40 (c : Nat) : Option St :=
  if isUL c 69 then some 72 else if isUL c 72 then some 41
  else if isUL c 73 then some 74 else if isUL c 79 then some 13
  else if isUL c 82 then some 120 else if isAlnum c then some 128 else none

def lexState41 (c : Nat) : Option St :=
  if isUL c 69 then some 76 else if isAlnum c then some 128 else none

def lexState42 (c : Nat) : Option St :=
  if isUL c 69 then some 20 else if isAlnum c then some 128 else none

def lexState43 (c : Nat) : Option St :=
  if isUL c 69 then some 106 else if isAlnum c then some 128 else none

def lexState44 (c : Nat) : Option St :=
  if isUL c 69 then some 107 else if isUL c 73 then some 30
  else if isAlnum c then some 128 else none

def lexState45 (c : Nat) : Option St :=
  if isUL c 69 then some 102 else if isAlnum c then some 128 else none

def lexState46 (c : Nat) : Option St :=
  if isUL c 69 then some 103 else if isAlnum c then some 128 else none

def lexState47 (c : Nat) : Option St :=
  if isUL c 71 then some 13 else if isAlnum c then some 128 else none

def lexState48 (c : Nat) : Option St :=
  if isUL c 71 then some 81
  else if isUL c 70 ∨ isUL c 78 ∨ isUL c 83 ∨ isUL c 84 then some 13
  else if isAlnum c then some 128 else none

def lexState49 (c : Nat) : Option St :=
  if isUL c 72 then some 13 else if isAlnum c then some 128 else none

def lexState50 (c : Nat) : Option St :=
  if isUL c 72 then some 59 else if isUL c 73 then some 115
  else if isAlnum c then some 128 else none

def lexState51 (c : Nat) : Option St :=
  if isUL c 73 then some 124 else if isAlnum c then some 128 else none

def lexState52 (c : Nat) : Option St :=
  if isUL c 73 then some 114 else if isAlnum c then some 128 else none

def lexState53 (c : Nat) : Option St :=
  if isUL c 73 then some 35 else if isAlnum c then some 128 else none

def lexState54 (c : Nat) : Option St :=
  if isUL c 73 then some 93 else if isAlnum c then some 128 else none

def lexState55 (c : Nat) : Option St :=
  if isUL c 73 then some 91 else if isAlnum c then some 128 else none

def lexState56 (c : Nat) : Option St :=
  if isUL c 73 then some 78 else if isAlnum c then some 128 else none

def lexState57 (c : Nat) : Option St :=
  if isUL c 73 then some 80 else if isAlnum c then some 128 else none

def lexState58 (c : Nat) : Option St :=
  if isUL c 73 then some 64 else if isAlnum c then some 128 else none

def lexState59 (c : Nat) : Option St :=
  if isUL c 73 then some 70 else if isAlnum c then some 128 else none

def lexState60 (c : Nat) : Option St :=
  if isUL c 73 then some 86 else if isAlnum c then some 128 else none

def lexState61 (c : Nat) : Option St :=
  if isUL c 73 then some 88 else if isAlnum c then some 128 else none

def lexState62 (c : Nat) : Option St :=
  if isUL c 73 then some 118 else if isAlnum c then some 128 else none

def lexState63 (c : Nat) : Option St :=
  if isUL c 75 then some 13 else if isAlnum c then some 128 else none

def lexState64 (c : Nat) : Option St :=
  if isUL c 76 then some 13 else if isAlnum c then some 128 else none

def lexState65 (c : Nat) : Option St :=
  if isUL c 76 then some 108 else if isUL c 78 then some 33
  else if isUL c 82 then some 101 else if isUL c 88 then some 52
  else if isAlnum c then some 128 else none

def lexState66 (c : Nat) : Option St :=
  if isUL c 76 then some 108 else if isAlnum c then some 128 else none

def lexState67 (c : Nat) : Option St :=
  if isUL c 76 then some 114 else if isAlnum c then some 128 else none

def lexState68 (c : Nat) : Option St :=
  if isUL c 76 then some 44 else if isAlnum c then some 128 else none

def lexState69 (c : Nat) : Option St :=
  if isUL c 76 then some 84 else if isAlnum c then some 128 else none

def lexState70 (c : Nat) : Option St :=
  if isUL c 76 then some 37 else if isAlnum c then some 128 else none

def lexState71 (c : Nat) : Option St :=
  if isUL c 76 then some 121 else if isAlnum c then some 128 else none

def lexState72 (c : Nat) : Option St :=
  if isUL c 76 then some 64 else if isAlnum c then some 128 else none

def lexState73 (c : Nat) : Option St :=
  if isUL c 77 then some 13 else if isAlnum c then some 128 else none

def lexState74 (c : Nat) : Option St :=
  if isUL c 77 then some 43 else if isAlnum c then some 128 else none

def lexState75 (c : Nat) : Option St :=
  if isUL c 77 then some 39 else if isAlnum c then some 128 else none

def lexState76 (c : Nat) : Option St :=
  if isUL c 78 then some 13 else if isAlnum c then some 128 else none

def lexState77 (c : Nat) : Option St :=
  if isUL c 78 then some 110 else if isAlnum c then some 128 else none

def lexState78 (c : Nat) : Option St :=
  if isUL c 78 then some 47 else if isAlnum c then some 128 else none

def lexState79 (c : Nat) : Option St :=
  if isUL c 78 then some 119 else if isUL c 83 then some 37
  else if isAlnum c then some 128 else none

def lexState80 (c : Nat) : Option St :=
  if isUL c 78 then some 106 else if isAlnum c then some 128 else none

def lexState81 (c : Nat) : Option St :=
  if isUL c 78 then some 90 else if isAlnum c then some 128 else none

def lexState82 (c : Nat) : Option St :=
  if isUL c 79 then some 28 else if isAlnum c then some 128 else none

def lexState83 (c : Nat) : Option St :=
  if isUL c 79 then some 114 else if isAlnum c then some 128 else none

def lexState84 (c : Nat) : Option St :=
  if isUL c 79 then some 27 else if isAlnum c then some 128 else none

def lexState85 (c : Nat) : Option St :=
  if isUL c 79 then some 95 else if isAlnum c then some 128 else none

def lexState86 (c : Nat) : Option St :=
  if isUL c 79 then some 76 else if isAlnum c then some 128 else none

def lexState87 (c : Nat) : Option St :=
  if isUL c 79 then some 96 else if isAlnum c then some 128 else none

def lexState88 (c : Nat) : Option St :=
  if isUL c 79 then some 80 else if isAlnum c then some 128 else none

def lexState89 (c : Nat) : Option St :=
  if isUL c 79 then some 97 else if isAlnum c then some 128 else none

def lexState90 (c : Nat) : Option St :=
  if isUL c 79 then some 103 else if isAlnum c then some 128 else none

def lexState91 (c : Nat) : Option St :=
  if isUL c 80 then some 114 else if isAlnum c then some 128 else none

def lexState92 (c : Nat) : Option St :=
  if isUL c 80 then some 42 else if isUL c 83 then some 123
  else if isUL c 84 then some 122 else if isAlnum c then some 128 else none

def lexState93 (c : Nat) : Option St :=
  if isUL c 80 then some 116 else if isAlnum c then some 128 else none

def lexState94 (c : Nat) : Option St :=
  if isUL c 80 then some 68 else if isAlnum c then some 128 else none

def lexState95 (c : Nat) : Option St :=
  if isUL c 80 then some 45 else if isAlnum c then some 128 else none

def lexState96 (c : Nat) : Option St :=
  if isUL c 82 then some 13 else if isAlnum c then some 128 else none

def lexState97 (c : Nat) : Option St :=
  if isUL c 82 then some 63 else if isAlnum c then some 128 else none

def lexState98 (c : Nat) : Option St :=
  if isUL c 82 then some 76 else if isAlnum c then some 128 else none

def lexState99 (c : Nat) : Option St :=
  if isUL c 82 then some 85 else if isAlnum c then some 128 else none

def lexState100 (c : Nat) : Option St :=
  if isUL c 82 then some 54 else if isAlnum c then some 128 else none

def lexState101 (c : Nat) : Option St :=
  if isUL c 82 then some 87 else if isAlnum c then some 128 else none

def lexState102 (c : Nat) : Option St :=
  if isUL c 82 then some 113 else if isAlnum c then some 128 else none

def lexState103 (c : Nat) : Option St :=
  if isUL c 82 then some 56 else if isAlnum c then some 128 else none

def lexState104 (c : Nat) : Option St :=
  if isUL c 82 then some 55 else if isAlnum c then some 128 else none

def lexState105 (c : Nat) : Option St :=
  if isUL c 82 then some 112 else if isAlnum c then some 128 else none

def lexState106 (c : Nat) : Option St :=
  if isUL c 83 then some 13 else if isAlnum c then some 128 else none

def lexState107 (c : Nat) : Option St :=
  if isUL c 83 then some 31 else if isAlnum c then some 128 else none

def lexState108 (c : Nat) : Option St :=
  if isUL c 83 then some 37 else if isAlnum c then some 128 else none

def lexState109 (c : Nat) : Option St :=
  if isUL c 83 then some 111 else if isAlnum c then some 128 else none

def lexState110 (c : Nat) : Option St :=
  if isUL c 83 then some 53 else if isUL c 84 then some 24
  else if isAlnum c then some 128 else none

def lexState111 (c : Nat) : Option St :=
  if isUL c 83 then some 56 else if isAlnum c then some 128 else none

def lexState112 (c : Nat) : Option St :=
  if isUL c 83 then some 60 else if isAlnum c then some 128 else none

def lexState113 (c : Nat) : Option St :=
  if isUL c 84 then some 126 else if isAlnum c then some 128 else none

def lexState114 (c : Nat) : Option St :=
  if isUL c 84 then some 13 else if isAlnum c then some 128 else none

def lexState115 (c : Nat) : Option St :=
  if isUL c 84 then some 49 else if isAlnum c then some 128 else none

def lexState116 (c : Nat) : Option St :=
  if isUL c 84 then some 12 else if isAlnum c then some 128 else none

def lexState117 (c : Nat) : Option St :=
  if isUL c 84 then some 60 else if isAlnum c then some 128 else none

def lexState118 (c : Nat) : Option St :=
  if isUL c 84 then some 61 else if isAlnum c then some 128 else none

def lexState119 (c : Nat) : Option St :=
  if isUL c 84 then some 58 else if isAlnum c then some 128 else none

def lexState120 (c : Nat) : Option St :=
  if isUL c 85 then some 37 else if isUL c 89 then some 13
  else if isAlnum c then some 128 else none

def lexState121 (c : Nat) : Option St :=
  if isUL c 85 then some 37 else if isAlnum c then some 128 else none

def lexState122 (c : Nat) : Option St :=
  if isUL c 85 then some 98 else if isAlnum c then some 128 else none

def lexState123 (c : Nat) : Option St :=
  if isUL c 85 then some 67 else if isAlnum c then some 128 else none

def lexState124 (c : Nat) : Option St :=
  if isUL c 86 then some 13 else if isAlnum c then some 128 else none

def lexState125 (c : Nat) : Option St :=
  if isUL c 87 then some 89 else if isAlnum c then some 128 else none

def lexState126 (c : Nat) : Option St :=
  if isUL c 89 then some 13 else if isAlnum c then some 128 else none

def lexState127 (c : Nat) : Option St :=
  if isUL c 70 ∨ isUL c 78 ∨ isUL c 82 then some 13
  else if isAlnum c then some 128 else none

def lexState128 (c : Nat) : Option St := if isAlnum c then some 128 else none

/-- The transition table of ts_lex: dispatch to the per-state case body. -/
def dfaStep (s : St) (c : Nat) : Option St :=
  if s.val < 64 then
    if s.val < 32 then
      if s.val < 16 then
        if s.val < 8 then
          if s.val < 4 then
            if s.val < 2 then
              if s.val < 1 then
                lexState0 c
              else
                lexState1 c
            else
              if s.val < 3 then
                lexState2 c
              else
                lexState3 c
          else
            if s.val < 6 then
              if s.val < 5 then
                lexState4 c
              else
                lexState5 c
            else
              if s.val < 7 then
                lexState6 c
              else
                lexState7 c
        else
          if s.val < 12 then
            if s.val < 10 then
              if s.val < 9 then
                lexState8 c
              else
                lexState9 c
            else
              if s.val < 11 then
                lexState10 c
              else
                lexState11 c
          else
            if s.val < 14 then
              if s.val < 13 then
                lexState12 c
              else
                lexState13 c
            else
              if s.val < 15 then
                lexState14 c
              else
                lexState15 c
      else
        if s.val < 24 then
          if s.val < 20 then
            if s.val < 18 then
              if s.val < 17 then
                lexState16 c
              else
                lexState17 c
            else
              if s.val < 19 then
                lexState18 c
              else
                lexState19 c
          else
            if s.val < 22 then
              if s.val < 21 then
                lexState20 c
              else
                lexState21 c
            else
              if s.val < 23 then
                lexState22 c
              else
                lexState23 c
        else
          if s.val < 28 then
            if s.val < 26 then
              if s.val < 25 then
                lexState24 c
              else
                lexState25 c
            else
              if s.val < 27 then
                lexState26 c
              else
                lexState27 c
          else
            if s.val < 30 then
              if s.val < 29 then
                lexState28 c
              else
                lexState29 c
            else
              if s.val < 31 then
                lexState30 c
              else
                lexState31 c
    else
      if s.val < 48 then
        if s.val < 40 then
          if s.val < 36 then
            if s.val < 34 then
              if s.val < 33 then
                lexState32 c
              else
                lexState33 c
            else
              if s.val < 35 then
                lexState34 c
              else
                lexState35 c
          else
            if s.val < 38 then
              if s.val < 37 then
                lexState36 c
              else
                lexState37 c
            else
              if s.val < 39 then
                lexState38 c
              else
                lexState39 c
        else
          if s.val < 44 then
            if s.val < 42 then
              if s.val < 41 then
                lexState40 c
              else
                lexState41 c
            else
              if s.val < 43 then
                lexState42 c
              else
                lexState43 c
          else
            if s.val < 46 then
              if s.val < 45 then
                lexState44 c
              else
                lexState45 c
            else
              if s.val < 47 then
                lexState46 c
              else
                lexState47 c
      else
        if s.val < 56 then
          if s.val < 52 then
            if s.val < 50 then
              if s.val < 49 then
                lexState48 c
              else
                lexState49 c
            else
              if s.val < 51 then
                lexState50 c
              else
                lexState51 c
          else
            if s.val < 54 then
              if s.val < 53 then
                lexState52 c
              else
                lexState53 c
            else
              if s.val < 55 then
                lexState54 c
              else
                lexState55 c
        else
          if s.val < 60 then
            if s.val < 58 then
              if s.val < 57 then
                lexState56 c
              else
                lexState57 c
            else
              if s.val < 59 then
                lexState58 c
              else
                lexState59 c
          else
            if s.val < 62 then
              if s.val < 61 then
                lexState60 c
              else
                lexState61 c
            else
              if s.val < 63 then
                lexState62 c
              else
                lexState63 c
  else
    if s.val < 96 then
      if s.val < 80 then
        if s.val < 72 then
          if s.val < 68 then
            if s.val < 66 then
              if s.val < 65 then
                lexState64 c
              else
                lexState65 c
            else
              if s.val < 67 then
                lexState66 c
              else
                lexState67 c
          else
            if s.val < 70 then
              if s.val < 69 then
                lexState68 c
              else
                lexState69 c
            else
              if s.val < 71 then
                lexState70 c
              else
                lexState71 c
        else
          if s.val < 76 then
            if s.val < 74 then
              if s.val < 73 then
                lexState72 c
              else
                lexState73 c
            else
              if s.val < 75 then
                lexState74 c
              else
                lexState75 c
          else
            if s.val < 78 then
              if s.val < 77 then
                lexState76 c
              else
                lexState77 c
            else
              if s.val < 79 then
                lexState78 c
              else
                lexState79 c
      else
        if s.val < 88 then
          if s.val < 84 then
            if s.val < 82 then
              if s.val < 81 then
                lexState80 c
              else
                lexState81 c
            else
              if s.val < 83 then
                lexState82 c
              else
                lexState83 c
          else
            if s.val < 86 then
              if s.val < 85 then
                lexState84 c
              else
                lexState85 c
            else
              if s.val < 87 then
                lexState86 c
              else
                lexState87 c
        else
          if s.val < 92 then
            if s.val < 90 then
              if s.val < 89 then
                lexState88 c
              else
                lexState89 c
            else
              if s.val < 91 then
                lexState90 c
              else
                lexState91 c
          else
            if s.val < 94 then
              if s.val < 93 then
                lexState92 c
              else
                lexState93 c
            else
              if s.val < 95 then
                lexState94 c
              else
                lexState95 c
    else
      if s.val < 112 then
        if s.val < 104 then
          if s.val < 100 then
            if s.val < 98 then
              if s.val < 97 then
                lexState96 c
              else
                lexState97 c
            else
              if s.val < 99 then
                lexState98 c
              else
                lexState99 c
          else
            if s.val < 102 then
              if s.val < 101 then
                lexState100 c
              else
                lexState101 c
            else
              if s.val < 103 then
                lexState102 c
              else
                lexState103 c
        else
          if s.val < 108 then
            if s.val < 106 then
              if s.val < 105 then
                lexState104 c
              else
                lexState105 c
            else
              if s.val < 107 then
                lexState106 c
              else
                lexState107 c
          else
            if s.val < 110 then
              if s.val < 109 then
                lexState108 c
              else
                lexState109 c
            else
              if s.val < 111 then
                lexState110 c
              else
                lexState111 c
      else
        if s.val < 120 then
          if s.val < 116 then
            if s.val < 114 then
              if s.val < 113 then
                lexState112 c
              else
                lexState113 c
            else
              if s.val < 115 then
                lexState114 c
              else
                lexState115 c
          else
            if s.val < 118 then
              if s.val < 117 then
                lexState116 c
              else
                lexState117 c
            else
              if s.val < 119 then
                lexState118 c
              else
                lexState119 c
        else
          if s.val < 124 then
            if s.val < 122 then
              if s.val < 121 then
                lexState120 c
              else
                lexState121 c
            else
              if s.val < 123 then
                lexState122 c
              else
                lexState123 c
          else
            if s.val < 126 then
              if s.val < 125 then
                lexState124 c
              else
                lexState125 c
            else
              if s.val < 127 then
                lexState126 c
              else
                if s.val < 128 then
                  lexState127 c
                else
                  lexState128 c

/-- The ACCEPT_TOKEN marks of ts_lex: state 7 and 8 accept a comment, 9 a
string, 10 and 11 a number, 12 and 13 a keyword, 14-16 an operator, 17-18
punctuation, and every state from 19 to 128 an identifier.  State 6 accepts
ts_builtin_sym_end in the C source; it is entered only through the eof
branch of state 0, which scanOne models directly, so it is recorded as none
here and the end token is produced by scanOne itself. -/
def dfaAccept (s : St) : Option Sym :=
  if s.val = 7 ∨ s.val = 8 then some Sym.comment
  else if s.val = 9 then some Sym.stringTok
  else if s.val = 10 ∨ s.val = 11 then some Sym.number
  else if s.val = 12 ∨ s.val = 13 then some Sym.keyword
  else if 14 ≤ s.val ∧ s.val ≤ 16 then some Sym.operator
  else if s.val = 17 ∨ s.val = 18 then some Sym.punctuation
  else if 19 ≤ s.val then some Sym.identifier
  else none

/-- The ADVANCE / ACCEPT_TOKEN / END_STATE driver of ts_lex.  On entering a
state, if it accepts, the token and current position are recorded (the C
result / mark_end pair); then the next character is consumed if a branch
fires, otherwise the run stops.  Returns the recorded token (if any) and
the state in which the run stopped. -/
def updBest (s : St) (pos : Nat) (best : Option (Sym × Nat)) : Option (Sym × Nat) :=
  match dfaAccept s with
  | some sym => some (sym, pos)
  | none => best

/-- The ADVANCE / ACCEPT_TOKEN / END_STATE driver of ts_lex, continued: the
run consumes characters while a branch fires; updBest applied on entering
each state is the ACCEPT_TOKEN mark.  Returns the recorded token (if any)
and the state in which the run stopped. -/
def runDFA (s : St) (l : List Nat) (pos : Nat) (best : Option (Sym × Nat)) :
    Option (Sym × Nat) × St :=
  match l with
  | [] => (updBest s pos best, s)
  | c :: r =>
    match dfaStep s c with
    | some s2 => runDFA s2 r (pos + 1) (updBest s pos best)
    | none => (updBest s pos best, s)

/-- Modelled from the spec: parser.c reports lexical failure only as a false
return from ts_lex; the error kinds named in the spec (UnterminatedString,
UnterminatedComment, NoMatchingRule) are recovered from the state in which
the scan died: state 2 is inside a string, states 3 and 4 inside a block
comment, every other failure state matched no rule. -/
inductive LexErrKind where
  | unterminatedString
  | unterminatedComment
  | noMatchingRule
deriving DecidableEq

/-- Error classification from the dying state (see LexErrKind). -/
def errKind (s : St) : LexErrKind :=
  if s.val = 2 then LexErrKind.unterminatedString
  else if s.val = 3 ∨ s.val = 4 then LexErrKind.unterminatedComment
  else LexErrKind.noMatchingRule

/-- Result of one scan call: the end-of-input token at a position, a token
with its span, or a failure at the offset where the failed token began. -/
inductive ScanRes where
  | eofTok (pos : Nat)
  | tok (sym : Sym) (tstart tstop : Nat)
  | err (off : Nat) (kind : LexErrKind)
deriving DecidableEq

/-- Length of the leading whitespace run: the SKIP(0) loop of state 0. -/
def wsCount : List Nat → Nat
  | [] => 0
  | c :: r => if isWs c then wsCount r + 1 else 0

/-- One scan call at a cursor position: skip leading whitespace (state 0
SKIP), then, at end of input, emit the zero-width end token (the eof branch
of state 0, ADVANCE(6)); otherwise run the state machine from state 0.  If
it recorded a token the cursor will resume at the marked end; if not, the
scan failed at the position where the token began. -/
def scanOne (input : List Nat) (pos : Nat) : ScanRes :=
  let rest := input.drop pos
  let k := wsCount rest
  let start := pos + k
  match rest.drop k with
  | [] => ScanRes.eofTok start
  | c :: r =>
    match runDFA 0 (c :: r) start none with
    | (some (sym, e), _) => ScanRes.tok sym start e
    | (none, sDie) => ScanRes.err start (errKind sDie)

/-- A classified token with its half-open span into the source. -/
structure Token where
  sym : Sym
  tstart : Nat
  tstop : Nat
deriving DecidableEq

/-- The item sequencer: repeatedly scan from offset 0, appending each token,
until the end token is produced (success) or a scan fails (the error and
the tokens collected so far are both returned).  Fuel bounds the loop; the
termination theorem shows input.length + 1 fuel never runs out. -/
def tokenizeAux (input : List Nat) : Nat → Nat → List Token →
    Option (List Token × Option (Nat × LexErrKind))
  | 0, _, _ => none
  | fuel + 1, pos, acc =>
    match scanOne input pos with
    | ScanRes.eofTok s => some (acc ++ [⟨Sym.endTok, s, s⟩], none)
    | ScanRes.err off kind => some (acc, some (off, kind))
    | ScanRes.tok sym s e => tokenizeAux input fuel e (acc ++ [⟨sym, s, e⟩])

/-- Tokenize a whole input from offset 0. -/
def tokenize (input : List Nat) : Option (List Token × Option (Nat × LexErrKind)) :=
  tokenizeAux input (input.length + 1) 0 []

/-- Code points of a string literal, for concrete test inputs. -/
def chars (s : String) : List Nat := s.toList.map Char.toNat

/-- The substring of the input covered by the half-open span from a to b. -/
def sliceCh (input : List Nat) (a b : Nat) : List Nat := (input.take b).drop a

/-- Reassemble the source from a token list: for each token, first the gap
from the running cursor to the token start (the skipped whitespace span),
then the token span itself, then continue from the token end. -/
def recon (input : List Nat) : Nat → List Token → List Nat
  | _, [] => []
  | cur, t :: ts =>
    sliceCh input cur t.tstart ++ sliceCh input t.tstart t.tstop ++ recon input t.tstop ts

/-- Every gap between the running cursor and the next token start consists
of whitespace only. -/
def gapsWs (input : List Nat) : Nat → List Token → Prop
  | _, [] => True
  | cur, t :: ts => (∀ c ∈ sliceCh input cur t.tstart, isWs c = true) ∧ gapsWs input t.tstop ts

/-- Number of leading characters of a line comment body: state 8 consumes
every character other than NUL and newline. -/
def lineLen : List Nat → Nat
  | [] => 0
  | c :: r => if c ≠ 0 ∧ c ≠ 10 then lineLen r + 1 else 0

/-- Lowercase an ASCII letter code, identity elsewhere. -/
def lowerC (c : Nat) : Nat := if 65 ≤ c ∧ c ≤ 90 then c + 32 else c

/-- Lowercase a word. -/
def lowerL (w : List Nat) : List Nat := w.map lowerC

/-- First character of an identifier-or-keyword run: a letter or underscore
(the letter and underscore entry branches of state 0). -/
def isIdentStart (c : Nat) : Bool :=
  decide ((65 ≤ c ∧ c ≤ 90) ∨ c = 95 ∨ (97 ≤ c ∧ c ≤ 122))

/-- A whole input that is exactly one identifier-or-keyword run. -/
def isIdentRun : List Nat → Bool
  | [] => false
  | c :: u => isIdentStart c && u.all isAlnum

/-- States belonging to the identifier-or-keyword part of the machine:
the keyword-accepting states 12 and 13 and the trie states 19..128. -/
def isIdentSt (s : St) : Bool :=
  decide (s.val = 12 ∨ s.val = 13 ∨ (19 ≤ s.val ∧ s.val ≤ 128))

/-- Successor state inside the identifier machine (always defined there). -/
def identNext (s : St) (c : Nat) : St := (dfaStep s c).getD 128

/-- State reached from s after an identifier run. -/
def foldSt (s : St) (u : List Nat) : St := u.foldl identNext s

/-- Keyword list of a string, code point by code point. -/
def kw (s : String) : List Nat := s.toList.map Char.toNat

/-- The suffix language of the keyword trie at each identifier state: the
lowercase words that, read from this state, end in a keyword-accepting
state (state 12 or 13).  Decoded from the transitions of ts_lex; the
derivative lemmas below verify, state by state and character by character,
that this table is exact for the machine.  States outside the identifier
machine, and the non-keyword sink 128, have the empty language. -/
def kwSuffPairs : List (Nat × List (List Nat)) :=
  [
  (12, [[], [105, 110, 103]]),
  (13, [[]]),
  (19, [[97, 115, 101], [111, 110, 115, 105, 100, 101, 114, 105, 110, 103], [111, 110, 116, 97, 105, 110, 115]]),
  (20, [[97, 116]]),
  (21, [[97, 108, 115, 101], [114, 97, 109, 101, 119, 111, 114, 107], [114, 111, 109]]),
  (22, [[97, 108, 117, 101], [101, 114, 115, 105, 111, 110]]),
  (23, [[97, 108]]),
  (24, [[97, 105, 110, 115]]),
  (25, [[97, 109, 101, 119, 111, 114, 107], [111, 109]]),
  (26, [[97, 116, 105, 111, 110]]),
  (27, [[98, 97, 108]]),
  (28, [[99, 97, 108]]),
  (29, [[99, 114, 105, 112, 116], [99, 114, 105, 112, 116, 105, 110, 103], [101, 116]]),
  (30, [[99, 97, 116, 105, 111, 110]]),
  (31, [[99, 114, 105, 112, 116]]),
  (32, [[100, 100, 105, 116, 105, 111, 110, 115], [110, 100], [112, 112, 108, 101, 115, 99, 114, 105, 112, 116], [112, 112, 108, 105, 99, 97, 116, 105, 111, 110]]),
  (33, [[100]]),
  (34, [[100, 105, 116, 105, 111, 110, 115]]),
  (35, [[100, 101, 114, 105, 110, 103]]),
  (36, [[101], [105, 115, 115, 105, 110, 103], [111, 100]]),
  (37, [[101]]),
  (38, [[101, 112, 101, 97, 116], [101, 115, 117, 108, 116], [101, 116, 117, 114, 110]]),
  (39, [[101, 119, 111, 114, 107]]),
  (40, [[101, 108, 108], [104, 101, 110], [105, 109, 101, 115], [111], [114, 117, 101], [114, 121]]),
  (41, [[101, 110]]),
  (42, [[101, 97, 116]]),
  (43, [[101, 115]]),
  (44, [[101, 115, 99, 114, 105, 112, 116], [105, 99, 97, 116, 105, 111, 110]]),
  (45, [[101, 114, 116, 121]]),
  (46, [[101, 114, 105, 110, 103]]),
  (47, [[103]]),
  (48, [[102], [103, 110, 111, 114, 105, 110, 103], [110], [115], [116]]),
  (49, [[104]]),
  (50, [[104, 105, 108, 101], [105, 116, 104]]),
  (51, [[105, 118]]),
  (52, [[105, 116]]),
  (53, [[105, 100, 101, 114, 105, 110, 103]]),
  (54, [[105, 112, 116], [105, 112, 116, 105, 110, 103]]),
  (55, [[105, 112, 116]]),
  (56, [[105, 110, 103]]),
  (57, [[105, 110, 115]]),
  (58, [[105, 108]]),
  (59, [[105, 108, 101]]),
  (60, [[105, 111, 110]]),
  (61, [[105, 111, 110, 115]]),
  (62, [[105, 116, 105, 111, 110, 115]]),
  (63, [[107]]),
  (64, [[108]]),
  (65, [[108, 115, 101], [110, 100], [114, 114, 111, 114], [120, 105, 116]]),
  (66, [[108, 115, 101]]),
  (67, [[108, 116]]),
  (68, [[108, 101, 115, 99, 114, 105, 112, 116], [108, 105, 99, 97, 116, 105, 111, 110]]),
  (69, [[108, 111, 98, 97, 108]]),
  (70, [[108, 101]]),
  (71, [[108, 117, 101]]),
  (72, [[108, 108]]),
  (73, [[109]]),
  (74, [[109, 101, 115]]),
  (75, [[109, 101, 119, 111, 114, 107]]),
  (76, [[110]]),
  (77, [[110, 115, 105, 100, 101, 114, 105, 110, 103], [110, 116, 97, 105, 110, 115]]),
  (78, [[110, 103]]),
  (79, [[110, 116, 105, 108], [115, 101]]),
  (80, [[110, 115]]),
  (81, [[110, 111, 114, 105, 110, 103]]),
  (82, [[111, 99, 97, 108]]),
  (83, [[111, 116]]),
  (84, [[111, 98, 97, 108]]),
  (85, [[111, 112, 101, 114, 116, 121]]),
  (86, [[111, 110]]),
  (87, [[111, 114]]),
  (88, [[111, 110, 115]]),
  (89, [[111, 114, 107]]),
  (90, [[111, 114, 105, 110, 103]]),
  (91, [[112, 116]]),
  (92, [[112, 101, 97, 116], [115, 117, 108, 116], [116, 117, 114, 110]]),
  (93, [[112, 116], [112, 116, 105, 110, 103]]),
  (94, [[112, 108, 101, 115, 99, 114, 105, 112, 116], [112, 108, 105, 99, 97, 116, 105, 111, 110]]),
  (95, [[112, 101, 114, 116, 121]]),
  (96, [[114]]),
  (97, [[114, 107]]),
  (98, [[114, 110]]),
  (99, [[114, 111, 112, 101, 114, 116, 121]]),
  (100, [[114, 105, 112, 116], [114, 105, 112, 116, 105, 110, 103]]),
  (101, [[114, 111, 114]]),
  (102, [[114, 116, 121]]),
  (103, [[114, 105, 110, 103]]),
  (104, [[114, 105, 112, 116]]),
  (105, [[114, 115, 105, 111, 110]]),
  (106, [[115]]),
  (107, [[115, 99, 114, 105, 112, 116]]),
  (108, [[115, 101]]),
  (109, [[115, 115, 105, 110, 103]]),
  (110, [[115, 105, 100, 101, 114, 105, 110, 103], [116, 97, 105, 110, 115]]),
  (111, [[115, 105, 110, 103]]),
  (112, [[115, 105, 111, 110]]),
  (113, [[116, 121]]),
  (114, [[116]]),
  (115, [[116, 104]]),
  (116, [[116], [116, 105, 110, 103]]),
  (117, [[116, 105, 111, 110]]),
  (118, [[116, 105, 111, 110, 115]]),
  (119, [[116, 105, 108]]),
  (120, [[117, 101], [121]]),
  (121, [[117, 101]]),
  (122, [[117, 114, 110]]),
  (123, [[117, 108, 116]]),
  (124, [[118]]),
  (125, [[119, 111, 114, 107]]),
  (126, [[121]]),
  (127, [[102], [110], [114]])]

/-- Suffix language lookup by state number; states absent from the table
(the states outside the identifier machine, and the sink 128) have the
empty language. -/
def kwSuff (s : St) : List (List Nat) := (kwSuffPairs.lookup s.val).getD []

/-- Words of S that start with c, with that first letter removed. -/
def derivW (c : Nat) : List (List Nat) → List (List Nat)
  | [] => []
  | [] :: S => derivW c S
  | (d :: u) :: S => if d = c then u :: derivW c S else derivW c S

/-- Two word lists with the same members. -/
def listEquiv (a b : List (List Nat)) : Bool :=
  (a.all fun x => decide (x ∈ b)) && (b.all fun x => decide (x ∈ a))

/-- The keyword table encoded letter by letter in states 12..127 of ts_lex,
decoded to a word list (lowercase).  The theorems below verify that this
list is exactly the set of runs the machine classifies as keyword. -/
def kwList : List (List Nat) :=
  [kw (r"additions"), kw (r"and"), kw (r"applescript"), kw (r"application"),
   kw (r"by"), kw (r"case"), kw (r"considering"), kw (r"contains"),
   kw (r"div"), kw (r"else"), kw (r"end"), kw (r"error"), kw (r"exit"),
   kw (r"false"), kw (r"framework"), kw (r"from"), kw (r"global"),
   kw (r"if"), kw (r"ignoring"), kw (r"in"), kw (r"is"), kw (r"it"),
   kw (r"local"), kw (r"me"), kw (r"missing"), kw (r"mod"), kw (r"not"),
   kw (r"of"), kw (r"on"), kw (r"or"), kw (r"property"), kw (r"repeat"),
   kw (r"result"), kw (r"return"), kw (r"script"), kw (r"scripting"),
   kw (r"set"), kw (r"tell"), kw (r"then"), kw (r"times"), kw (r"to"),
   kw (r"true"), kw (r"try"), kw (r"until"), kw (r"use"), kw (r"value"),
   kw (r"version"), kw (r"while"), kw (r"with")]

/-- One character of the case-swap relation: equal, or an ASCII letter with
its case toggled. -/
def caseSwapCh (c d : Nat) : Bool :=
  (c == d) || (decide (65 ≤ c ∧ c ≤ 90) && (d == c + 32)) ||
    (decide (97 ≤ c ∧ c ≤ 122) && (d + 32 == c))

/-- Two inputs that differ only by swapping the case of letters. -/
def caseSwapL : List Nat → List Nat → Bool
  | [], [] => true
  | c :: u, d :: v => caseSwapCh c d && caseSwapL u v
  | _, _ => false

/-- Well-formed token chain from a cursor position: each token starts at or
after the cursor across a whitespace-only gap, is non-empty, and the chain
ends with the zero-width end token at the end of the input. -/
def goodChain (input : List Nat) : Nat → List Token → Prop
  | _, [] => False
  | pos, t :: ts =>
    (t.sym = Sym.endTok ∧ t.tstart = input.length ∧ t.tstop = input.length ∧
      pos ≤ input.length ∧ (∀ c ∈ sliceCh input pos t.tstart, isWs c = true) ∧ ts = [])
    ∨ (pos ≤ t.tstart ∧ t.tstart < t.tstop ∧ t.tstop ≤ input.length ∧
      (∀ c ∈ sliceCh input pos t.tstart, isWs c = true) ∧ goodChain input t.tstop ts)

/-- Characters 0..122 that may continue an identifier. -/
def alnumChars : List Nat := (List.range 123).filter isAlnum

/-- Characters 0..122 that may start an identifier-or-keyword run. -/
def identStartChars : List Nat := (List.range 123).filter isIdentStart

/-- Membership of a word in a word list. -/
def memW (x : List Nat) : List (List Nat) → Bool
  | [] => false
  | y :: ys => decide (x = y) || memW x ys

/-- Every word of a is a member of b. -/
def subW (a b : List (List Nat)) : Bool := a.all fun x => memW x b

/-- The two word lists have the same members. -/
def eqvW (a b : List (List Nat)) : Bool := subW a b && subW b a

/-- Per-state check that the keyword suffix table is exact: for every
identifier continuation character, the machine steps to another identifier
state whose suffix language is the derivative of this state's suffix
language by the lowercased character. -/
def trieCheckAt (s : St) : Bool :=
  alnumChars.all fun c =>
    (dfaStep s c).elim false fun s2 =>
      isIdentSt s2 && eqvW (kwSuff s2) (derivW (lowerC c) (kwSuff s))

/-- Per-state check that the uppercase and lowercase variants of every
letter transition identically. -/
def caseCheckAt (s : St) : Bool :=
  (List.range 26).all fun i => decide (dfaStep s (i + 65) = dfaStep s (i + 97))

/-- Per-state check on acceptance in the identifier machine: a state
accepts keyword exactly when the empty suffix is in its suffix language,
and accepts either keyword or identifier. -/
def acceptCheckAt (s : St) : Bool :=
  (decide (dfaAccept s = some Sym.keyword) == memW [] (kwSuff s)) &&
    (decide (dfaAccept s = some Sym.keyword) || decide (dfaAccept s = some Sym.identifier))

/-- Entry check: from state 0, every run-start character enters an
identifier state whose suffix language is the derivative of the keyword
list by the lowercased character. -/
def entryCheck : Bool :=
  identStartChars.all fun c =>
    (dfaStep 0 c).elim false fun s2 =>
      isIdentSt s2 && eqvW (kwSuff s2) (derivW (lowerC c) kwList)

/-- Number of end-of-input tokens in a token list. -/
def endCount (toks : List Token) : Nat := toks.countP fun t => decide (t.sym = Sym.endTok)

/-- Concrete inputs used in the examples of the specification. -/
def exComment : List Nat := chars (r"(* a (* b *) c *)")

def exLine : List Nat := chars (r"-- hello")

def exNum : List Nat := chars (r"12.5 foo <= 3")

def exDot : List Nat := chars (r"12.")

def exAnd : List Nat := chars (r"and")

def exFoo : List Nat := chars (r"Foo")

def exStr : List Nat := 34 :: chars (r"abc")

def exHash : List Nat := chars (r"#x")

set_option maxRecDepth 4000

/-
Finite facts about the tables, established state by state by kernel
reduction: the keyword suffix table is derivative-exact, letters transition
case-insensitively, and acceptance in the identifier machine is keyword
exactly at the states whose suffix language contains the empty word.
-/

theorem trieAt12 : trieCheckAt 12 = true := by decide!

theorem trieAt13 : trieCheckAt 13 = true := by decide!

theorem trieAt19 : trieCheckAt 19 = true := by decide!

theorem trieAt20 : trieCheckAt 20 = true := by decide!

theorem trieAt21 : trieCheckAt 21 = true := by decide!

theorem trieAt22 : trieCheckAt 22 = true := by decide!

theorem trieAt23 : trieCheckAt 23 = true := by decide!

theorem trieAt24 : trieCheckAt 24 = true := by decide!

theorem trieAt25 : trieCheckAt 25 = true := by decide!

theorem trieAt26 : trieCheckAt 26 = true := by decide!

theorem trieAt27 : trieCheckAt 27 = true := by decide!

theorem trieAt28 : trieCheckAt 28 = true := by decide!

theorem trieAt29 : trieCheckAt 29 = true := by decide!

theorem trieAt30 : trieCheckAt 30 = true := by decide!

theorem trieAt31 : trieCheckAt 31 = true := by decide!

theorem trieAt32 : trieCheckAt 32 = true := by decide!

theorem trieAt33 : trieCheckAt 33 = true := by decide!

theorem trieAt34 : trieCheckAt 34 = true := by decide!

theorem trieAt35 : trieCheckAt 35 = true := by decide!

theorem trieAt36 : trieCheckAt 36 = true := by decide!

theorem trieAt37 : trieCheckAt 37 = true := by decide!

theorem trieAt38 : trieCheckAt 38 = true := by decide!

theorem trieAt39 : trieCheckAt 39 = true := by decide!

theorem trieAt40 : trieCheckAt 40 = true := by decide!

theorem trieAt41 : trieCheckAt 41 = true := by decide!

theorem trieAt42 : trieCheckAt 42 = true := by decide!

theorem trieAt43 : trieCheckAt 43 = true := by decide!

theorem trieAt44 : trieCheckAt 44 = true := by decide!

theorem trieAt45 : trieCheckAt 45 = true := by decide!

theorem trieAt46 : trieCheckAt 46 = true := by decide!

theorem trieAt47 : trieCheckAt 47 = true := by decide!

theorem trieAt48 : trieCheckAt 48 = true := by decide!

theorem trieAt49 : trieCheckAt 49 = true := by decide!

theorem trieAt50 : trieCheckAt 50 = true := by decide!

theorem trieAt51 : trieCheckAt 51 = true := by decide!

theorem trieAt52 : trieCheckAt 52 = true := by decide!

theorem trieAt53 : trieCheckAt 53 = true := by decide!

theorem trieAt54 : trieCheckAt 54 = true := by decide!

theorem trieAt55 : trieCheckAt 55 = true := by decide!

theorem trieAt56 : trieCheckAt 56 = true := by decide!

theorem trieAt57 : trieCheckAt 57 = true := by decide!

theorem trieAt58 : trieCheckAt 58 = true := by decide!

theorem trieAt59 : trieCheckAt 59 = true := by decide!

theorem trieAt60 : trieCheckAt 60 = true := by decide!

theorem trieAt61 : trieCheckAt 61 = true := by decide!

theorem trieAt62 : trieCheckAt 62 = true := by decide!

theorem trieAt63 : trieCheckAt 63 = true := by decide!

theorem trieAt64 : trieCheckAt 64 = true := by decide!

theorem trieAt65 : trieCheckAt 65 = true := by decide!

theorem trieAt66 : trieCheckAt 66 = true := by decide!

theorem trieAt67 : trieCheckAt 67 = true := by decide!

theorem trieAt68 : trieCheckAt 68 = true := by decide!

theorem trieAt69 : trieCheckAt 69 = true := by decide!

theorem trieAt70 : trieCheckAt 70 = true := by decide!

theorem trieAt71 : trieCheckAt 71 = true := by decide!

theorem trieAt72 : trieCheckAt 72 = true := by decide!

theorem trieAt73 : trieCheckAt 73 = true := by decide!

theorem trieAt74 : trieCheckAt 74 = true := by decide!

theorem trieAt75 : trieCheckAt 75 = true := by decide!

theorem trieAt76 : trieCheckAt 76 = true := by decide!

theorem trieAt77 : trieCheckAt 77 = true := by decide!

theorem trieAt78 : trieCheckAt 78 = true := by decide!

theorem trieAt79 : trieCheckAt 79 = true := by decide!

theorem trieAt80 : trieCheckAt 80 = true := by decide!

theorem trieAt81 : trieCheckAt 81 = true := by decide!

theorem trieAt82 : trieCheckAt 82 = true := by decide!

theorem trieAt83 : trieCheckAt 83 = true := by decide!

theorem trieAt84 : trieCheckAt 84 = true := by decide!

theorem trieAt85 : trieCheckAt 85 = true := by decide!

theorem trieAt86 : trieCheckAt 86 = true := by decide!

theorem trieAt87 : trieCheckAt 87 = true := by decide!

theorem trieAt88 : trieCheckAt 88 = true := by decide!

theorem trieAt89 : trieCheckAt 89 = true := by decide!

theorem trieAt90 : trieCheckAt 90 = true := by decide!

theorem trieAt91 : trieCheckAt 91 = true := by decide!

theorem trieAt92 : trieCheckAt 92 = true := by decide!

theorem trieAt93 : trieCheckAt 93 = true := by decide!

theorem trieAt94 : trieCheckAt 94 = true := by decide!

theorem trieAt95 : trieCheckAt 95 = true := by decide!

theorem trieAt96 : trieCheckAt 96 = true := by decide!

theorem trieAt97 : trieCheckAt 97 = true := by decide!

theorem trieAt98 : trieCheckAt 98 = true := by decide!

theorem trieAt99 : trieCheckAt 99 = true := by decide!

theorem trieAt100 : trieCheckAt 100 = true := by decide!

theorem trieAt101 : trieCheckAt 101 = true := by decide!

theorem trieAt102 : trieCheckAt 102 = true := by decide!

theorem trieAt103 : trieCheckAt 103 = true := by decide!

theorem trieAt104 : trieCheckAt 104 = true := by decide!

theorem trieAt105 : trieCheckAt 105 = true := by decide!

theorem trieAt106 : trieCheckAt 106 = true := by decide!

theorem trieAt107 : trieCheckAt 107 = true := by decide!

theorem trieAt108 : trieCheckAt 108 = true := by decide!

theorem trieAt109 : trieCheckAt 109 = true := by decide!

theorem trieAt110 : trieCheckAt 110 = true := by decide!

theorem trieAt111 : trieCheckAt 111 = true := by decide!

theorem trieAt112 : trieCheckAt 112 = true := by decide!

theorem trieAt113 : trieCheckAt 113 = true := by decide!

theorem trieAt114 : trieCheckAt 114 = true := by decide!

theorem trieAt115 : trieCheckAt 115 = true := by decide!

theorem trieAt116 : trieCheckAt 116 = true := by decide!

theorem trieAt117 : trieCheckAt 117 = true := by decide!

theorem trieAt118 : trieCheckAt 118 = true := by decide!

theorem trieAt119 : trieCheckAt 119 = true := by decide!

theorem trieAt120 : trieCheckAt 120 = true := by decide!

theorem trieAt121 : trieCheckAt 121 = true := by decide!

theorem trieAt122 : trieCheckAt 122 = true := by decide!

theorem trieAt123 : trieCheckAt 123 = true := by decide!

theorem trieAt124 : trieCheckAt 124 = true := by decide!

theorem trieAt125 : trieCheckAt 125 = true := by decide!

theorem trieAt126 : trieCheckAt 126 = true := by decide!

theorem trieAt127 : trieCheckAt 127 = true := by decide!

theorem trieAt128 : trieCheckAt 128 = true := by decide!

theorem trieCheckAll (s : St) (hs : isIdentSt s = true) : trieCheckAt s = true :=
  match s, hs with
  | ⟨12, _⟩, _ => trieAt12
  | ⟨13, _⟩, _ => trieAt13
  | ⟨19, _⟩, _ => trieAt19
  | ⟨20, _⟩, _ => trieAt20
  | ⟨21, _⟩, _ => trieAt21
  | ⟨22, _⟩, _ => trieAt22
  | ⟨23, _⟩, _ => trieAt23
  | ⟨24, _⟩, _ => trieAt24
  | ⟨25, _⟩, _ => trieAt25
  | ⟨26, _⟩, _ => trieAt26
  | ⟨27, _⟩, _ => trieAt27
  | ⟨28, _⟩, _ => trieAt28
  | ⟨29, _⟩, _ => trieAt29
  | ⟨30, _⟩, _ => trieAt30
  | ⟨31, _⟩, _ => trieAt31
  | ⟨32, _⟩, _ => trieAt32
  | ⟨33, _⟩, _ => trieAt33
  | ⟨34, _⟩, _ => trieAt34
  | ⟨35, _⟩, _ => trieAt35
  | ⟨36, _⟩, _ => trieAt36
  | ⟨37, _⟩, _ => trieAt37
  | ⟨38, _⟩, _ => trieAt38
  | ⟨39, _⟩, _ => trieAt39
  | ⟨40, _⟩, _ => trieAt40
  | ⟨41, _⟩, _ => trieAt41
  | ⟨42, _⟩, _ => trieAt42
  | ⟨43, _⟩, _ => trieAt43
  | ⟨44, _⟩, _ => trieAt44
  | ⟨45, _⟩, _ => trieAt45
  | ⟨46, _⟩, _ => trieAt46
  | ⟨47, _⟩, _ => trieAt47
  | ⟨48, _⟩, _ => trieAt48
  | ⟨49, _⟩, _ => trieAt49
  | ⟨50, _⟩, _ => trieAt50
  | ⟨51, _⟩, _ => trieAt51
  | ⟨52, _⟩, _ => trieAt52
  | ⟨53, _⟩, _ => trieAt53
  | ⟨54, _⟩, _ => trieAt54
  | ⟨55, _⟩, _ => trieAt55
  | ⟨56, _⟩, _ => trieAt56
  | ⟨57, _⟩, _ => trieAt57
  | ⟨58, _⟩, _ => trieAt58
  | ⟨59, _⟩, _ => trieAt59
  | ⟨60, _⟩, _ => trieAt60
  | ⟨61, _⟩, _ => trieAt61
  | ⟨62, _⟩, _ => trieAt62
  | ⟨63, _⟩, _ => trieAt63
  | ⟨64, _⟩, _ => trieAt64
  | ⟨65, _⟩, _ => trieAt65
  | ⟨66, _⟩, _ => trieAt66
  | ⟨67, _⟩, _ => trieAt67
  | ⟨68, _⟩, _ => trieAt68
  | ⟨69, _⟩, _ => trieAt69
  | ⟨70, _⟩, _ => trieAt70
  | ⟨71, _⟩, _ => trieAt71
  | ⟨72, _⟩, _ => trieAt72
  | ⟨73, _⟩, _ => trieAt73
  | ⟨74, _⟩, _ => trieAt74
  | ⟨75, _⟩, _ => trieAt75
  | ⟨76, _⟩, _ => trieAt76
  | ⟨77, _⟩, _ => trieAt77
  | ⟨78, _⟩, _ => trieAt78
  | ⟨79, _⟩, _ => trieAt79
  | ⟨80, _⟩, _ => trieAt80
  | ⟨81, _⟩, _ => trieAt81
  | ⟨82, _⟩, _ => trieAt82
  | ⟨83, _⟩, _ => trieAt83
  | ⟨84, _⟩, _ => trieAt84
  | ⟨85, _⟩, _ => trieAt85
  | ⟨86, _⟩, _ => trieAt86
  | ⟨87, _⟩, _ => trieAt87
  | ⟨88, _⟩, _ => trieAt88
  | ⟨89, _⟩, _ => trieAt89
  | ⟨90, _⟩, _ => trieAt90
  | ⟨91, _⟩, _ => trieAt91
  | ⟨92, _⟩, _ => trieAt92
  | ⟨93, _⟩, _ => trieAt93
  | ⟨94, _⟩, _ => trieAt94
  | ⟨95, _⟩, _ => trieAt95
  | ⟨96, _⟩, _ => trieAt96
  | ⟨97, _⟩, _ => trieAt97
  | ⟨98, _⟩, _ => trieAt98
  | ⟨99, _⟩, _ => trieAt99
  | ⟨100, _⟩, _ => trieAt100
  | ⟨101, _⟩, _ => trieAt101
  | ⟨102, _⟩, _ => trieAt102
  | ⟨103, _⟩, _ => trieAt103
  | ⟨104, _⟩, _ => trieAt104
  | ⟨105, _⟩, _ => trieAt105
  | ⟨106, _⟩, _ => trieAt106
  | ⟨107, _⟩, _ => trieAt107
  | ⟨108, _⟩, _ => trieAt108
  | ⟨109, _⟩, _ => trieAt109
  | ⟨110, _⟩, _ => trieAt110
  | ⟨111, _⟩, _ => trieAt111
  | ⟨112, _⟩, _ => trieAt112
  | ⟨113, _⟩, _ => trieAt113
  | ⟨114, _⟩, _ => trieAt114
  | ⟨115, _⟩, _ => trieAt115
  | ⟨116, _⟩, _ => trieAt116
  | ⟨117, _⟩, _ => trieAt117
  | ⟨118, _⟩, _ => trieAt118
  | ⟨119, _⟩, _ => trieAt119
  | ⟨120, _⟩, _ => trieAt120
  | ⟨121, _⟩, _ => trieAt121
  | ⟨122, _⟩, _ => trieAt122
  | ⟨123, _⟩, _ => trieAt123
  | ⟨124, _⟩, _ => trieAt124
  | ⟨125, _⟩, _ => trieAt125
  | ⟨126, _⟩, _ => trieAt126
  | ⟨127, _⟩, _ => trieAt127
  | ⟨128, _⟩, _ => trieAt128
  | ⟨0, _⟩, hs => nomatch hs
  | ⟨1, _⟩, hs => nomatch hs
  | ⟨2, _⟩, hs => nomatch hs
  | ⟨3, _⟩, hs => nomatch hs
  | ⟨4, _⟩, hs => nomatch hs
  | ⟨5, _⟩, hs => nomatch hs
  | ⟨6, _⟩, hs => nomatch hs
  | ⟨7, _⟩, hs => nomatch hs
  | ⟨8, _⟩, hs => nomatch hs
  | ⟨9, _⟩, hs => nomatch hs
  | ⟨10, _⟩, hs => nomatch hs
  | ⟨11, _⟩, hs => nomatch hs
  | ⟨14, _⟩, hs => nomatch hs
  | ⟨15, _⟩, hs => nomatch hs
  | ⟨16, _⟩, hs => nomatch hs
  | ⟨17, _⟩, hs => nomatch hs
  | ⟨18, _⟩, hs => nomatch hs

theorem caseAllB : ((List.finRange 129).all fun s => caseCheckAt s) = true := by decide!

theorem acceptAllB : ((List.finRange 129).all fun s => !(isIdentSt s) || acceptCheckAt s) = true := by
  decide!

theorem entryCheck_true : entryCheck = true := by decide!

theorem acceptNeEnd : ∀ s : St, ¬ dfaAccept s = some Sym.endTok := by decide!


/-
Extraction lemmas: from the Bool table checks to usable propositions.
-/

theorem memW_iff (x : List Nat) : ∀ l : List (List Nat), memW x l = true ↔ x ∈ l := by
  intro l
  induction l with
  | nil => simp [memW]
  | cons y ys ih => simp [memW, ih]

theorem subW_mem {a b : List (List Nat)} (h : subW a b = true) {x : List Nat} (hx : x ∈ a) :
    x ∈ b :=
  (memW_iff x b).mp (List.all_eq_true.mp h x hx)

theorem eqvW_mem {a b : List (List Nat)} (h : eqvW a b = true) (x : List Nat) :
    x ∈ a ↔ x ∈ b := by
  rw [eqvW, Bool.and_eq_true] at h
  exact ⟨fun hx => subW_mem h.1 hx, fun hx => subW_mem h.2 hx⟩

theorem mem_derivW {c : Nat} {u : List Nat} :
    ∀ {S : List (List Nat)}, u ∈ derivW c S ↔ (c :: u) ∈ S := by
  intro S
  induction S with
  | nil => simp [derivW]
  | cons w S ih =>
    cases w with
    | nil => simpa [derivW] using ih
    | cons d v =>
      by_cases hd : d = c
      · subst hd
        rw [derivW, if_pos rfl]
        simp [ih]
      · rw [derivW, if_neg hd]
        have hd2 : ¬c = d := fun e => hd e.symm
        simp [ih, hd2]

theorem isAlnum_lt {c : Nat} (h : isAlnum c = true) : c < 123 := by
  simp only [isAlnum, decide_eq_true_eq] at h
  omega

theorem mem_alnumChars {c : Nat} (h : isAlnum c = true) : c ∈ alnumChars := by
  have hlt := isAlnum_lt h
  rw [alnumChars, List.mem_filter, List.mem_range]
  exact ⟨hlt, h⟩

theorem isIdentStart_lt {c : Nat} (h : isIdentStart c = true) : c < 123 := by
  simp only [isIdentStart, decide_eq_true_eq] at h
  omega

theorem mem_identStartChars {c : Nat} (h : isIdentStart c = true) : c ∈ identStartChars := by
  have hlt := isIdentStart_lt h
  rw [identStartChars, List.mem_filter, List.mem_range]
  exact ⟨hlt, h⟩

theorem isIdentStart_isAlnum {c : Nat} (h : isIdentStart c = true) : isAlnum c = true := by
  simp only [isIdentStart, decide_eq_true_eq] at h
  simp only [isAlnum, decide_eq_true_eq]
  omega

theorem trie_step {s : St} (hs : isIdentSt s = true) {c : Nat} (hc : isAlnum c = true) :
    ∃ s2, dfaStep s c = some s2 ∧ isIdentSt s2 = true ∧
      ∀ u, u ∈ kwSuff s2 ↔ u ∈ derivW (lowerC c) (kwSuff s) := by
  have hall := trieCheckAll s hs
  rw [trieCheckAt] at hall
  have hc2 := List.all_eq_true.mp hall c (mem_alnumChars hc)
  cases hstep : dfaStep s c with
  | none => rw [hstep] at hc2; simp [Option.elim] at hc2
  | some s2 =>
    rw [hstep] at hc2
    simp only [Option.elim, Bool.and_eq_true] at hc2
    exact ⟨s2, rfl, hc2.1, eqvW_mem hc2.2⟩

theorem entry_step {c : Nat} (hc : isIdentStart c = true) :
    ∃ s2, dfaStep 0 c = some s2 ∧ isIdentSt s2 = true ∧
      ∀ u, u ∈ kwSuff s2 ↔ u ∈ derivW (lowerC c) kwList := by
  have hall := entryCheck_true
  rw [entryCheck] at hall
  have hc2 := List.all_eq_true.mp hall c (mem_identStartChars hc)
  cases hstep : dfaStep 0 c with
  | none => rw [hstep] at hc2; simp [Option.elim] at hc2
  | some s2 =>
    rw [hstep] at hc2
    simp only [Option.elim, Bool.and_eq_true] at hc2
    exact ⟨s2, rfl, hc2.1, eqvW_mem hc2.2⟩

theorem accept_ident {s : St} (hs : isIdentSt s = true) :
    (dfaAccept s = some Sym.keyword ↔ [] ∈ kwSuff s) ∧
      (dfaAccept s = some Sym.keyword ∨ dfaAccept s = some Sym.identifier) := by
  have h := List.all_eq_true.mp acceptAllB s (List.mem_finRange s)
  rw [Bool.or_eq_true, Bool.not_eq_true'] at h
  rcases h with h | h
  · rw [hs] at h; cases h
  · rw [acceptCheckAt, Bool.and_eq_true, Bool.or_eq_true] at h
    obtain ⟨h1, h2⟩ := h
    have h1' : decide (dfaAccept s = some Sym.keyword) = memW [] (kwSuff s) :=
      beq_iff_eq.mp h1
    refine ⟨⟨fun hk => ?_, fun hm => ?_⟩, ?_⟩
    · exact (memW_iff _ _).mp (h1' ▸ decide_eq_true hk)
    · exact of_decide_eq_true (h1'.trans ((memW_iff _ _).mpr hm))
    · rcases h2 with h2 | h2
      · exact Or.inl (of_decide_eq_true h2)
      · exact Or.inr (of_decide_eq_true h2)

theorem caseStep_upper {s : St} {c : Nat} (h1 : 65 ≤ c) (h2 : c ≤ 90) :
    dfaStep s c = dfaStep s (c + 32) := by
  have h := List.all_eq_true.mp caseAllB s (List.mem_finRange s)
  rw [caseCheckAt] at h
  have h3 := List.all_eq_true.mp h (c - 65) (List.mem_range.mpr (by omega))
  have h4 := of_decide_eq_true h3
  rw [show c - 65 + 65 = c from by omega, show c - 65 + 97 = c + 32 from by omega] at h4
  exact h4

/-
Soundness of the recorded token in runDFA, and the complete characterization
of runs over identifier characters.
-/

theorem updBest_sound {lo pos : Nat} {s : St} {best : Option (Sym × Nat)}
    (hpos : lo ≤ pos)
    (hbest : ∀ q, best = some q → lo ≤ q.2 ∧ q.2 ≤ pos ∧ q.1 ≠ Sym.endTok) :
    ∀ q, updBest s pos best = some q → lo ≤ q.2 ∧ q.2 ≤ pos ∧ q.1 ≠ Sym.endTok := by
  intro q hq
  rw [updBest] at hq
  cases hacc : dfaAccept s with
  | none => rw [hacc] at hq; exact hbest q hq
  | some sym =>
    rw [hacc] at hq
    cases hq
    exact ⟨hpos, Nat.le_refl _, fun h => acceptNeEnd s (h ▸ hacc)⟩

theorem runDFA_bounds {lo : Nat} :
    ∀ (l : List Nat) (s : St) (pos : Nat) (best : Option (Sym × Nat)),
      lo ≤ pos →
      (∀ q, best = some q → lo ≤ q.2 ∧ q.2 ≤ pos ∧ q.1 ≠ Sym.endTok) →
      ∀ q, (runDFA s l pos best).1 = some q →
        lo ≤ q.2 ∧ q.2 ≤ pos + l.length ∧ q.1 ≠ Sym.endTok := by
  intro l
  induction l with
  | nil =>
    intro s pos best hpos hbest q hq
    rw [runDFA] at hq
    exact updBest_sound hpos hbest q hq
  | cons c r ih =>
    intro s pos best hpos hbest q hq
    rw [runDFA] at hq
    cases hstep : dfaStep s c with
    | none =>
      simp only [hstep] at hq
      obtain ⟨h1, h2, h3⟩ := updBest_sound hpos hbest q hq
      exact ⟨h1, Nat.le_trans h2 (by omega), h3⟩
    | some s2 =>
      simp only [hstep] at hq
      have hub := @updBest_sound lo pos s best hpos hbest
      have := ih s2 (pos + 1) (updBest s pos best) (by omega)
        (fun q hq => by
          obtain ⟨h1, h2, h3⟩ := hub q hq
          exact ⟨h1, by omega, h3⟩) q hq
      obtain ⟨h1, h2, h3⟩ := this
      exact ⟨h1, by simp only [List.length_cons]; omega, h3⟩

theorem foldSt_nil (s : St) : foldSt s [] = s := rfl

theorem foldSt_cons (s : St) (c : Nat) (u : List Nat) :
    foldSt s (c :: u) = foldSt (identNext s c) u := rfl

theorem foldSt_ident :
    ∀ (u : List Nat) (s : St), isIdentSt s = true → (∀ c ∈ u, isAlnum c = true) →
      isIdentSt (foldSt s u) = true := by
  intro u
  induction u with
  | nil => intro s hs _; exact hs
  | cons c r ih =>
    intro s hs hall
    obtain ⟨s2, hstep, hs2, _⟩ := trie_step hs (hall c (List.mem_cons_self c r))
    rw [foldSt_cons]
    have hnext : identNext s c = s2 := by rw [identNext, hstep]; rfl
    rw [hnext]
    exact ih s2 hs2 fun d hd => hall d (List.mem_cons_of_mem c hd)

theorem runDFA_ident :
    ∀ (u : List Nat) (s : St), isIdentSt s = true → (∀ c ∈ u, isAlnum c = true) →
      ∀ (pos : Nat) (best : Option (Sym × Nat)),
        runDFA s u pos best =
          (some ((dfaAccept (foldSt s u)).getD Sym.identifier, pos + u.length),
            foldSt s u) := by
  intro u
  induction u with
  | nil =>
    intro s hs _ pos best
    rw [runDFA, updBest, foldSt_nil]
    rcases (accept_ident hs).2 with h | h <;> rw [h] <;> rfl
  | cons c r ih =>
    intro s hs hall pos best
    obtain ⟨s2, hstep, hs2, _⟩ := trie_step hs (hall c (List.mem_cons_self c r))
    have hnext : identNext s c = s2 := by rw [identNext, hstep]; rfl
    rw [runDFA]
    simp only [hstep]
    rw [foldSt_cons, hnext, ih s2 hs2 (fun d hd => hall d (List.mem_cons_of_mem c hd))]
    have : pos + 1 + r.length = pos + (r.length + 1) := by omega
    rw [this]
    rfl

theorem foldSt_keyword :
    ∀ (u : List Nat) (s : St), isIdentSt s = true → (∀ c ∈ u, isAlnum c = true) →
      (dfaAccept (foldSt s u) = some Sym.keyword ↔ lowerL u ∈ kwSuff s) := by
  intro u
  induction u with
  | nil =>
    intro s hs _
    rw [foldSt_nil]
    simpa [lowerL] using (accept_ident hs).1
  | cons c r ih =>
    intro s hs hall
    obtain ⟨s2, hstep, hs2, hsuf⟩ := trie_step hs (hall c (List.mem_cons_self c r))
    have hnext : identNext s c = s2 := by rw [identNext, hstep]; rfl
    rw [foldSt_cons, hnext, ih s2 hs2 (fun d hd => hall d (List.mem_cons_of_mem c hd))]
    rw [show lowerL (c :: r) = lowerC c :: lowerL r from rfl]
    rw [hsuf (lowerL r)]
    exact mem_derivW

/-
List and whitespace bookkeeping, and the behaviour of one scan call.
-/

theorem scanOne_eq (input : List Nat) (pos : Nat) :
    scanOne input pos =
      match (input.drop pos).drop (wsCount (input.drop pos)) with
      | [] => ScanRes.eofTok (pos + wsCount (input.drop pos))
      | c :: r =>
        match runDFA 0 (c :: r) (pos + wsCount (input.drop pos)) none with
        | (some (sym, e), _) => ScanRes.tok sym (pos + wsCount (input.drop pos)) e
        | (none, sDie) => ScanRes.err (pos + wsCount (input.drop pos)) (errKind sDie) := rfl

theorem wsCount_le : ∀ l : List Nat, wsCount l ≤ l.length := by
  intro l
  induction l with
  | nil => exact Nat.le_refl _
  | cons a r ih =>
    rw [wsCount]
    by_cases ha : isWs a = true
    · rw [if_pos ha, List.length_cons]; omega
    · rw [if_neg ha]; omega

theorem take_wsCount_ws : ∀ l : List Nat, ∀ c ∈ l.take (wsCount l), isWs c = true := by
  intro l
  induction l with
  | nil => intro c hc; simp at hc
  | cons a r ih =>
    intro c hc
    rw [wsCount] at hc
    by_cases ha : isWs a = true
    · rw [if_pos ha, List.take_succ_cons] at hc
      rcases List.mem_cons.mp hc with rfl | hc2
      · exact ha
      · exact ih c hc2
    · rw [if_neg ha] at hc
      simp at hc

theorem wsCount_all_ws : ∀ l : List Nat, wsCount l = l.length → ∀ c ∈ l, isWs c = true := by
  intro l
  induction l with
  | nil => intro _ c hc; simp at hc
  | cons a r ih =>
    intro h c hc
    rw [wsCount] at h
    by_cases ha : isWs a = true
    · rw [if_pos ha, List.length_cons] at h
      rcases List.mem_cons.mp hc with rfl | hc2
      · exact ha
      · exact ih (by omega) c hc2
    · rw [if_neg ha, List.length_cons] at h
      omega

theorem sliceCh_take : ∀ (l : List Nat) (p k : Nat), sliceCh l p (p + k) = (l.drop p).take k := by
  intro l
  induction l with
  | nil => intro p k; simp [sliceCh]
  | cons a r ih =>
    intro p k
    cases p with
    | zero => simp [sliceCh, Nat.zero_add]
    | succ p =>
      show ((a :: r).take (p + 1 + k)).drop (p + 1) = ((a :: r).drop (p + 1)).take k
      rw [show p + 1 + k = (p + k) + 1 from by omega, List.take_succ_cons,
        List.drop_succ_cons, List.drop_succ_cons]
      exact ih p k

theorem runDFA_start_bounds {c : Nat} {r : List Nat} {start : Nat} {q : Sym × Nat}
    (h : (runDFA 0 (c :: r) start none).1 = some q) :
    start < q.2 ∧ q.2 ≤ start + 1 + r.length ∧ q.1 ≠ Sym.endTok := by
  rw [runDFA] at h
  cases hstep : dfaStep 0 c with
  | none =>
    simp only [hstep] at h
    rw [show updBest 0 start none = none from rfl] at h
    cases h
  | some s2 =>
    simp only [hstep] at h
    rw [show updBest 0 start none = none from rfl] at h
    have := @runDFA_bounds (start + 1) r s2 (start + 1) none (Nat.le_refl _)
      (fun q hq => by cases hq) q h
    exact ⟨by omega, by omega, this.2.2⟩

theorem scanOne_tok_facts {input : List Nat} {pos : Nat} {sym : Sym} {ts te : Nat}
    (h : scanOne input pos = ScanRes.tok sym ts te) :
    pos ≤ ts ∧ ts < te ∧ te ≤ input.length ∧ sym ≠ Sym.endTok ∧
      ∀ c ∈ sliceCh input pos ts, isWs c = true := by
  rw [scanOne_eq] at h
  cases hrest : (input.drop pos).drop (wsCount (input.drop pos)) with
  | nil => rw [hrest] at h; cases h
  | cons c r =>
    simp only [hrest] at h
    cases hrun : runDFA 0 (c :: r) (pos + wsCount (input.drop pos)) none with
    | mk fst snd =>
      simp only [hrun] at h
      cases fst with
      | none => cases h
      | some q =>
        obtain ⟨sym2, e2⟩ := q
        cases h
        have hb := runDFA_start_bounds (by rw [hrun])
        have hlen := congrArg List.length hrest
        simp only [List.length_drop, List.length_cons] at hlen
        have hle := wsCount_le (input.drop pos)
        rw [List.length_drop] at hle
        refine ⟨by omega, by exact hb.1, by omega, hb.2.2, ?_⟩
        rw [sliceCh_take]
        exact take_wsCount_ws (input.drop pos)

theorem scanOne_eof_facts {input : List Nat} {pos s : Nat} (hpos : pos ≤ input.length)
    (h : scanOne input pos = ScanRes.eofTok s) :
    s = input.length ∧ ∀ c ∈ sliceCh input pos s, isWs c = true := by
  rw [scanOne_eq] at h
  cases hrest : (input.drop pos).drop (wsCount (input.drop pos)) with
  | cons c r =>
    simp only [hrest] at h
    cases hrun : runDFA 0 (c :: r) (pos + wsCount (input.drop pos)) none with
    | mk fst snd =>
      simp only [hrun] at h
      cases fst with
      | none => cases h
      | some q => obtain ⟨sym2, e2⟩ := q; cases h
  | nil =>
    rw [hrest] at h
    cases h
    have hlen := congrArg List.length hrest
    simp only [List.length_drop, List.length_nil] at hlen
    have hle := wsCount_le (input.drop pos)
    rw [List.length_drop] at hle
    have hk : wsCount (input.drop pos) = input.length - pos := by omega
    refine ⟨by omega, ?_⟩
    rw [sliceCh_take]
    intro c hc
    exact take_wsCount_ws (input.drop pos) c hc

theorem scanOne_at_end {input : List Nat} {pos : Nat} (h : input.length ≤ pos) :
    scanOne input pos = ScanRes.eofTok pos := by
  have hd : input.drop pos = [] := List.drop_eq_nil_of_le h
  rw [scanOne_eq, hd]
  rfl

theorem scanOne_cons {input : List Nat} {pos c : Nat} {r : List Nat}
    (h : input.drop pos = c :: r) (hc : isWs c = false) :
    scanOne input pos =
      match runDFA 0 (c :: r) pos none with
      | (some (sym, e), _) => ScanRes.tok sym pos e
      | (none, sDie) => ScanRes.err pos (errKind sDie) := by
  rw [scanOne_eq, h]
  have hws : wsCount (c :: r) = 0 := by rw [wsCount, hc]; rfl
  rw [hws]
  rfl

/-
Slices, the well-formed chain invariant of the item sequencer, termination,
and the case-swap equivalence of whole tokenizations.
-/

theorem drop_append_all {α : Type} :
    ∀ (l₁ l₂ : List α) (n : Nat), (l₁ ++ l₂).drop n = l₁.drop n ++ l₂.drop (n - l₁.length) := by
  intro l₁
  induction l₁ with
  | nil => intro l₂ n; simp
  | cons a l ih =>
    intro l₂ n
    cases n with
    | zero => simp
    | succ n =>
      rw [List.cons_append, List.drop_succ_cons, List.drop_succ_cons, ih]
      simp

theorem sliceCh_drop {l : List Nat} {a b : Nat} (h1 : a ≤ b) (h2 : b ≤ l.length) :
    sliceCh l a b ++ l.drop b = l.drop a := by
  have hlen : (l.take b).length = b := by rw [List.length_take]; omega
  conv_rhs => rw [← List.take_append_drop b l]
  rw [drop_append_all, hlen, show a - b = 0 from by omega, List.drop_zero]
  rfl

theorem sliceCh_append {l : List Nat} {a b c : Nat} (h1 : a ≤ b) (h2 : b ≤ c)
    (h3 : c ≤ l.length) : sliceCh l a b ++ sliceCh l b c = sliceCh l a c := by
  have hYlen : (l.take c).length = c := by rw [List.length_take]; omega
  have htt : l.take b = (l.take c).take b := by
    rw [List.take_take, Nat.min_eq_left h2]
  have hdrop := @sliceCh_drop (l.take c) a b h1 (by omega)
  show (l.take b).drop a ++ (l.take c).drop b = (l.take c).drop a
  rw [htt]
  exact hdrop

theorem goodChain_bounds (input : List Nat) :
    ∀ (ts : List Token) (pos : Nat), goodChain input pos ts →
      ∀ t ∈ ts, pos ≤ t.tstart ∧ t.tstart ≤ t.tstop ∧ t.tstop ≤ input.length := by
  intro ts
  induction ts with
  | nil => intro pos h; exact h.elim
  | cons t ts ih =>
    intro pos h t2 ht2
    rw [goodChain] at h
    rcases h with ⟨hsym, hst, hsp, hpos, hws, hnil⟩ | ⟨h1, h2, h3, hws, hg⟩
    · subst hnil
      rcases List.mem_cons.mp ht2 with rfl | h2
      · exact ⟨by omega, by omega, by omega⟩
      · simp at h2
    · rcases List.mem_cons.mp ht2 with rfl | hmem
      · exact ⟨h1, by omega, h3⟩
      · have := ih t.tstop hg t2 hmem
        exact ⟨by omega, this.2.1, this.2.2⟩

theorem goodChain_pairwise (input : List Nat) :
    ∀ (ts : List Token) (pos : Nat), goodChain input pos ts →
      ts.Pairwise fun a b => a.tstop ≤ b.tstart ∧ a.tstart < b.tstart := by
  intro ts
  induction ts with
  | nil => intro pos h; exact h.elim
  | cons t ts ih =>
    intro pos h
    rw [goodChain] at h
    rcases h with ⟨hsym, hst, hsp, hpos, hws, hnil⟩ | ⟨h1, h2, h3, hws, hg⟩
    · subst hnil
      simp
    · refine List.Pairwise.cons ?_ (ih t.tstop hg)
      intro b hb
      have := goodChain_bounds input ts t.tstop hg b hb
      exact ⟨by omega, by omega⟩

theorem goodChain_recon (input : List Nat) :
    ∀ (ts : List Token) (pos : Nat), goodChain input pos ts →
      recon input pos ts = input.drop pos := by
  intro ts
  induction ts with
  | nil => intro pos h; exact h.elim
  | cons t ts ih =>
    intro pos h
    rw [goodChain] at h
    rw [recon]
    rcases h with ⟨hsym, hst, hsp, hpos, hws, hnil⟩ | ⟨h1, h2, h3, hws, hg⟩
    · subst hnil
      rw [recon, hst, hsp]
      rw [show sliceCh input input.length input.length = [] from ?_, List.append_nil,
        List.append_nil]
      · show (input.take input.length).drop pos = input.drop pos
        rw [List.take_length]
      · show (input.take input.length).drop input.length = []
        rw [List.take_length, List.drop_length]
    · rw [List.append_assoc, ih t.tstop hg, sliceCh_drop (by omega) h3,
        sliceCh_drop h1 (by omega)]

theorem goodChain_gaps (input : List Nat) :
    ∀ (ts : List Token) (pos : Nat), goodChain input pos ts → gapsWs input pos ts := by
  intro ts
  induction ts with
  | nil => intro pos h; exact h.elim
  | cons t ts ih =>
    intro pos h
    rw [goodChain] at h
    rw [gapsWs]
    rcases h with ⟨hsym, hst, hsp, hpos, hws, hnil⟩ | ⟨h1, h2, h3, hws, hg⟩
    · subst hnil
      exact ⟨hws, trivial⟩
    · exact ⟨hws, ih t.tstop hg⟩

theorem tokenizeAux_isSome (input : List Nat) :
    ∀ (fuel pos : Nat) (acc : List Token), input.length + 1 ≤ fuel + pos → 1 ≤ fuel →
      (tokenizeAux input fuel pos acc).isSome = true := by
  intro fuel
  induction fuel with
  | zero => intro pos acc h h1; omega
  | succ fuel ih =>
    intro pos acc h _
    rw [tokenizeAux]
    cases hscan : scanOne input pos with
    | eofTok s => simp
    | err off kind => simp
    | tok sym s e =>
      simp only []
      obtain ⟨hps, hse, hel, _, _⟩ := scanOne_tok_facts hscan
      exact ih e (acc ++ [⟨sym, s, e⟩]) (by omega) (by omega)

theorem tokenize_isSome (input : List Nat) : (tokenize input).isSome = true :=
  tokenizeAux_isSome input (input.length + 1) 0 [] (by omega) (by omega)

theorem tokenizeAux_good (input : List Nat) :
    ∀ (fuel pos : Nat) (acc toks : List Token), pos ≤ input.length →
      tokenizeAux input fuel pos acc = some (toks, none) →
      ∃ ts, toks = acc ++ ts ∧ goodChain input pos ts := by
  intro fuel
  induction fuel with
  | zero => intro pos acc toks _ h; rw [tokenizeAux] at h; cases h
  | succ fuel ih =>
    intro pos acc toks hpos h
    rw [tokenizeAux] at h
    cases hscan : scanOne input pos with
    | eofTok s =>
      simp only [hscan] at h
      cases h
      obtain ⟨hs, hws⟩ := scanOne_eof_facts hpos hscan
      refine ⟨[⟨Sym.endTok, s, s⟩], rfl, ?_⟩
      rw [goodChain]
      exact Or.inl ⟨rfl, hs, hs, hpos, hws, rfl⟩
    | err off kind => simp only [hscan] at h; cases h
    | tok sym s e =>
      simp only [hscan] at h
      obtain ⟨hps, hse, hel, hsym, hws⟩ := scanOne_tok_facts hscan
      obtain ⟨ts, htoks, hgood⟩ := ih e (acc ++ [⟨sym, s, e⟩]) toks hel h
      refine ⟨⟨sym, s, e⟩ :: ts, ?_, ?_⟩
      · rw [htoks, List.append_assoc]; rfl
      · rw [goodChain]; exact Or.inr ⟨hps, hse, hel, hws, hgood⟩

theorem endCount_append (a b : List Token) : endCount (a ++ b) = endCount a + endCount b := by
  rw [endCount, endCount, endCount, List.countP_append]

theorem tokenizeAux_endCount (input : List Nat) :
    ∀ (fuel pos : Nat) (acc toks : List Token) (errv : Option (Nat × LexErrKind)),
      tokenizeAux input fuel pos acc = some (toks, errv) →
      endCount toks = endCount acc + (if errv = none then 1 else 0) := by
  intro fuel
  induction fuel with
  | zero => intro pos acc toks errv h; rw [tokenizeAux] at h; cases h
  | succ fuel ih =>
    intro pos acc toks errv h
    rw [tokenizeAux] at h
    cases hscan : scanOne input pos with
    | eofTok s =>
      simp only [hscan] at h
      cases h
      rw [endCount_append]
      have h1 : endCount [(⟨Sym.endTok, s, s⟩ : Token)] = 1 := by
        simp [endCount, List.countP_cons]
      rw [h1]
      simp
    | err off kind =>
      simp only [hscan] at h
      cases h
      simp
    | tok sym s e =>
      simp only [hscan] at h
      obtain ⟨_, _, _, hsym, _⟩ := scanOne_tok_facts hscan
      rw [ih e (acc ++ [⟨sym, s, e⟩]) toks errv h, endCount_append]
      have h1 : endCount [(⟨sym, s, e⟩ : Token)] = 0 := by
        simp [endCount, List.countP_cons, hsym]
      rw [h1]
      omega

theorem caseSwapCh_step {c d : Nat} (h : caseSwapCh c d = true) (s : St) :
    dfaStep s c = dfaStep s d := by
  rw [caseSwapCh, Bool.or_eq_true, Bool.or_eq_true] at h
  rcases h with (h | h) | h
  · rw [beq_iff_eq.mp h]
  · rw [Bool.and_eq_true] at h
    have h1 := of_decide_eq_true h.1
    have h2 := beq_iff_eq.mp h.2
    rw [h2]
    exact caseStep_upper h1.1 h1.2
  · rw [Bool.and_eq_true] at h
    have h1 := of_decide_eq_true h.1
    have h2 := beq_iff_eq.mp h.2
    rw [← h2]
    exact (caseStep_upper (by omega) (by omega)).symm

theorem caseSwapCh_ws {c d : Nat} (h : caseSwapCh c d = true) : isWs c = isWs d := by
  rw [caseSwapCh, Bool.or_eq_true, Bool.or_eq_true] at h
  rcases h with (h | h) | h
  · rw [beq_iff_eq.mp h]
  · rw [Bool.and_eq_true] at h
    have h1 := of_decide_eq_true h.1
    have h2 := beq_iff_eq.mp h.2
    have hc : isWs c = false := by unfold isWs; exact decide_eq_false (by omega)
    have hd : isWs d = false := by unfold isWs; exact decide_eq_false (by omega)
    rw [hc, hd]
  · rw [Bool.and_eq_true] at h
    have h1 := of_decide_eq_true h.1
    have h2 := beq_iff_eq.mp h.2
    have hc : isWs c = false := by unfold isWs; exact decide_eq_false (by omega)
    have hd : isWs d = false := by unfold isWs; exact decide_eq_false (by omega)
    rw [hc, hd]

theorem caseSwapL_facts : ∀ u v : List Nat, caseSwapL u v = true →
    u.length = v.length ∧ wsCount u = wsCount v := by
  intro u
  induction u with
  | nil =>
    intro v h
    cases v with
    | nil => exact ⟨rfl, rfl⟩
    | cons d w => exact (nomatch h)
  | cons c u ih =>
    intro v h
    cases v with
    | nil => exact (nomatch h)
    | cons d w =>
      rw [caseSwapL, Bool.and_eq_true] at h
      obtain ⟨h1, h2⟩ := h
      obtain ⟨hlen, hws⟩ := ih w h2
      refine ⟨by simp [hlen], ?_⟩
      rw [wsCount, wsCount, caseSwapCh_ws h1, hws]

theorem caseSwapL_drop : ∀ (k : Nat) (u v : List Nat), caseSwapL u v = true →
    caseSwapL (u.drop k) (v.drop k) = true := by
  intro k
  induction k with
  | zero => intro u v h; simpa using h
  | succ k ih =>
    intro u v h
    cases u with
    | nil =>
      cases v with
      | nil => exact h
      | cons d w => exact (nomatch h)
    | cons c u =>
      cases v with
      | nil => exact (nomatch h)
      | cons d w =>
        rw [caseSwapL, Bool.and_eq_true] at h
        rw [List.drop_succ_cons, List.drop_succ_cons]
        exact ih u w h.2

theorem runDFA_caseSwap : ∀ (u v : List Nat), caseSwapL u v = true →
    ∀ (s : St) (pos : Nat) (best : Option (Sym × Nat)),
      runDFA s u pos best = runDFA s v pos best := by
  intro u
  induction u with
  | nil =>
    intro v h s pos best
    cases v with
    | nil => rfl
    | cons d w => exact (nomatch h)
  | cons c u ih =>
    intro v h s pos best
    cases v with
    | nil => exact (nomatch h)
    | cons d w =>
      rw [caseSwapL, Bool.and_eq_true] at h
      rw [runDFA, runDFA, ← caseSwapCh_step h.1 s]
      cases hstep : dfaStep s c with
      | none => rfl
      | some s2 =>
        simp only [hstep]
        exact ih w h.2 s2 (pos + 1) (updBest s pos best)

theorem scanOne_caseSwap (u v : List Nat) (h : caseSwapL u v = true) (pos : Nat) :
    scanOne u pos = scanOne v pos := by
  have hd := caseSwapL_drop pos u v h
  have hws := (caseSwapL_facts _ _ hd).2
  rw [scanOne_eq, scanOne_eq, ← hws]
  have hd2 := caseSwapL_drop (wsCount (u.drop pos)) _ _ hd
  cases hu : (u.drop pos).drop (wsCount (u.drop pos)) with
  | nil =>
    cases hv : (v.drop pos).drop (wsCount (u.drop pos)) with
    | nil => rfl
    | cons d w => rw [hu, hv] at hd2; exact (nomatch hd2)
  | cons c r =>
    cases hv : (v.drop pos).drop (wsCount (u.drop pos)) with
    | nil => rw [hu, hv] at hd2; exact (nomatch hd2)
    | cons d w =>
      rw [hu, hv] at hd2
      have hre := runDFA_caseSwap _ _ hd2 0 (pos + wsCount (u.drop pos)) none
      simp only [hre]

theorem tokenizeAux_caseSwap (u v : List Nat) (h : caseSwapL u v = true) :
    ∀ (fuel pos : Nat) (acc : List Token),
      tokenizeAux u fuel pos acc = tokenizeAux v fuel pos acc := by
  intro fuel
  induction fuel with
  | zero => intro pos acc; rfl
  | succ fuel ih =>
    intro pos acc
    rw [tokenizeAux, tokenizeAux, ← scanOne_caseSwap u v h pos]
    cases scanOne u pos with
    | eofTok s => rfl
    | err o k => rfl
    | tok sym s e => exact ih e (acc ++ [⟨sym, s, e⟩])

theorem tokenize_caseSwap (u v : List Nat) (h : caseSwapL u v = true) :
    tokenize u = tokenize v := by
  rw [tokenize, tokenize, (caseSwapL_facts u v h).1]
  exact tokenizeAux_caseSwap u v h _ 0 []

/-
Specific scan shapes used by the claims: line comments, the hash-bang
opener, unterminated strings, and numbers followed by a bare dot.
-/

theorem dfaStep1_eq (c : Nat) : dfaStep 1 c = if c = 33 then some 8 else none := rfl

theorem dfaStep2_eq (c : Nat) :
    dfaStep 2 c = if c = 34 then some 9 else if c ≠ 0 then some 2 else none := rfl

theorem dfaStep5_eq (c : Nat) :
    dfaStep 5 c = if 48 ≤ c ∧ c ≤ 57 then some 11 else none := rfl

theorem dfaStep8_eq (c : Nat) :
    dfaStep 8 c = if c ≠ 0 ∧ c ≠ 10 then some 8 else none := rfl

theorem dfaStep10_eq (c : Nat) :
    dfaStep 10 c = if c = 46 then some 5 else if 48 ≤ c ∧ c ≤ 57 then some 10 else none := rfl

theorem runDFA_lineComment : ∀ (l : List Nat) (pos : Nat) (best : Option (Sym × Nat)),
    runDFA 8 l pos best = (some (Sym.comment, pos + lineLen l), 8) := by
  intro l
  induction l with
  | nil => intro pos best; rfl
  | cons c r ih =>
    intro pos best
    rw [runDFA]
    by_cases hc : c ≠ 0 ∧ c ≠ 10
    · have hstep : dfaStep 8 c = some 8 := by rw [dfaStep8_eq, if_pos hc]
      simp only [hstep]
      rw [ih (pos + 1) (updBest 8 pos best), lineLen, if_pos hc]
      have harith : pos + 1 + lineLen r = pos + (lineLen r + 1) := by omega
      rw [harith]
    · have hstep : dfaStep 8 c = none := by rw [dfaStep8_eq, if_neg hc]
      simp only [hstep]
      rw [lineLen, if_neg hc]
      rfl

theorem scanOne_dashDash {input : List Nat} {pos : Nat} {rest : List Nat}
    (h : input.drop pos = 45 :: 45 :: rest) :
    scanOne input pos = ScanRes.tok Sym.comment pos (pos + (2 + lineLen rest)) := by
  rw [scanOne_cons h rfl]
  rw [runDFA]
  simp only [show dfaStep 0 45 = some 15 from rfl]
  rw [runDFA]
  simp only [show dfaStep 15 45 = some 8 from rfl]
  rw [runDFA_lineComment]
  have harith : pos + 1 + 1 + lineLen rest = pos + (2 + lineLen rest) := by omega
  rw [harith]

theorem scanOne_hashBang {input : List Nat} {pos : Nat} {rest : List Nat}
    (h : input.drop pos = 35 :: 33 :: rest) :
    scanOne input pos = ScanRes.tok Sym.comment pos (pos + (2 + lineLen rest)) := by
  rw [scanOne_cons h rfl]
  rw [runDFA]
  simp only [show dfaStep 0 35 = some 1 from rfl]
  rw [runDFA]
  simp only [show dfaStep 1 33 = some 8 from rfl]
  rw [runDFA_lineComment]
  have harith : pos + 1 + 1 + lineLen rest = pos + (2 + lineLen rest) := by omega
  rw [harith]

theorem scanOne_hashErr {input : List Nat} {pos : Nat} {rest : List Nat}
    (h : input.drop pos = 35 :: rest) (hr : rest.head? ≠ some 33) :
    scanOne input pos = ScanRes.err pos LexErrKind.noMatchingRule := by
  rw [scanOne_cons h rfl]
  rw [runDFA]
  simp only [show dfaStep 0 35 = some 1 from rfl]
  cases rest with
  | nil => rfl
  | cons c r =>
    have hc : c ≠ 33 := fun e => hr (by rw [e]; rfl)
    rw [runDFA]
    have hstep : dfaStep 1 c = none := by rw [dfaStep1_eq, if_neg hc]
    simp only [hstep]
    rfl

theorem runDFA_inString : ∀ (l : List Nat), (∀ c ∈ l, c ≠ 34 ∧ c ≠ 0) →
    ∀ (pos : Nat), runDFA 2 l pos none = (none, 2) := by
  intro l
  induction l with
  | nil => intro _ pos; rfl
  | cons c r ih =>
    intro hall pos
    obtain ⟨h34, h0⟩ := hall c (List.mem_cons_self c r)
    rw [runDFA]
    have hstep : dfaStep 2 c = some 2 := by
      rw [dfaStep2_eq, if_neg h34, if_pos h0]
    simp only [hstep]
    rw [show updBest 2 pos none = none from rfl]
    exact ih (fun d hd => hall d (List.mem_cons_of_mem c hd)) (pos + 1)

theorem scanOne_untermString {input : List Nat} {pos : Nat} {rest : List Nat}
    (h : input.drop pos = 34 :: rest) (hr : ∀ c ∈ rest, c ≠ 34 ∧ c ≠ 0) :
    scanOne input pos = ScanRes.err pos LexErrKind.unterminatedString := by
  rw [scanOne_cons h rfl]
  rw [runDFA]
  simp only [show dfaStep 0 34 = some 2 from rfl]
  rw [show updBest 0 pos none = none from rfl]
  rw [runDFA_inString rest hr (pos + 1)]
  rfl

theorem scanOne_dotErr {input : List Nat} {pos : Nat} {rest : List Nat}
    (h : input.drop pos = 46 :: rest) :
    scanOne input pos = ScanRes.err pos LexErrKind.noMatchingRule := by
  rw [scanOne_cons h rfl]
  rw [runDFA]
  simp only [show dfaStep 0 46 = none from rfl]
  rfl

theorem dfaStep0_digit {d : Nat} (h1 : 48 ≤ d) (h2 : d ≤ 57) : dfaStep 0 d = some 10 := by
  interval_cases d <;> rfl

theorem dfaStep10_digit {d : Nat} (h1 : 48 ≤ d) (h2 : d ≤ 57) : dfaStep 10 d = some 10 := by
  rw [dfaStep10_eq, if_neg (by omega), if_pos ⟨h1, h2⟩]

theorem isWs_digit {d : Nat} (h1 : 48 ≤ d) (h2 : d ≤ 57) : isWs d = false := by
  unfold isWs
  exact decide_eq_false (by omega)

theorem runDFA_digitsDot :
    ∀ (ds rest : List Nat) (pos : Nat) (best : Option (Sym × Nat)),
      (∀ d ∈ ds, 48 ≤ d ∧ d ≤ 57) →
      (∀ d, rest.head? = some d → ¬(48 ≤ d ∧ d ≤ 57)) →
      runDFA 10 (ds ++ 46 :: rest) pos best = (some (Sym.number, pos + ds.length), 5) := by
  intro ds
  induction ds with
  | nil =>
    intro rest pos best _ hrest
    rw [List.nil_append, runDFA]
    simp only [show dfaStep 10 46 = some 5 from rfl]
    rw [show updBest 10 pos best = some (Sym.number, pos) from rfl]
    cases rest with
    | nil => rfl
    | cons d r =>
      rw [runDFA]
      have hd := hrest d rfl
      have hstep : dfaStep 5 d = none := by rw [dfaStep5_eq, if_neg hd]
      simp only [hstep]
      rfl
  | cons d ds ih =>
    intro rest pos best hds hrest
    obtain ⟨h1, h2⟩ := hds d (List.mem_cons_self d ds)
    rw [List.cons_append, runDFA]
    simp only [dfaStep10_digit h1 h2]
    rw [ih rest (pos + 1) _ (fun e he => hds e (List.mem_cons_of_mem d he)) hrest]
    have harith : pos + 1 + ds.length = pos + (ds.length + 1) := by omega
    rw [harith]
    rfl

theorem scanOne_numTrailingDot {input : List Nat} {pos : Nat} {ds rest : List Nat}
    (hne : ds ≠ []) (hds : ∀ d ∈ ds, 48 ≤ d ∧ d ≤ 57)
    (h : input.drop pos = ds ++ 46 :: rest)
    (hrest : ∀ d, rest.head? = some d → ¬(48 ≤ d ∧ d ≤ 57)) :
    scanOne input pos = ScanRes.tok Sym.number pos (pos + ds.length) := by
  cases ds with
  | nil => exact absurd rfl hne
  | cons d0 ds =>
    obtain ⟨h1, h2⟩ := hds d0 (List.mem_cons_self d0 ds)
    rw [List.cons_append] at h
    rw [scanOne_cons h (isWs_digit h1 h2)]
    rw [runDFA]
    simp only [dfaStep0_digit h1 h2]
    rw [show updBest 0 pos none = none from rfl]
    rw [runDFA_digitsDot ds rest (pos + 1) _
      (fun e he => hds e (List.mem_cons_of_mem d0 he)) hrest]
    have harith : pos + 1 + ds.length = pos + (ds.length + 1) := by omega
    rw [harith]
    rfl

/-
Whole-input identifier-or-keyword runs, and single-token tokenizations.
-/

theorem isWs_identStart {c : Nat} (h : isIdentStart c = true) : isWs c = false := by
  simp only [isIdentStart, decide_eq_true_eq] at h
  unfold isWs
  exact decide_eq_false (by omega)

theorem scanOne_identRun {c : Nat} {u : List Nat} (hc : isIdentStart c = true)
    (hu : ∀ d ∈ u, isAlnum d = true) :
    scanOne (c :: u) 0 = ScanRes.tok
      (if lowerL (c :: u) ∈ kwList then Sym.keyword else Sym.identifier) 0 (u.length + 1) := by
  obtain ⟨s2, hstep, hs2, hsuf⟩ := entry_step hc
  rw [scanOne_cons (show (c :: u).drop 0 = c :: u from rfl) (isWs_identStart hc)]
  rw [runDFA]
  simp only [hstep]
  rw [show updBest 0 0 none = none from rfl]
  rw [runDFA_ident u s2 hs2 hu 1 none]
  have hfold := foldSt_ident u s2 hs2 hu
  have hmem : dfaAccept (foldSt s2 u) = some Sym.keyword ↔ lowerL (c :: u) ∈ kwList := by
    rw [foldSt_keyword u s2 hs2 hu, hsuf (lowerL u),
      show lowerL (c :: u) = lowerC c :: lowerL u from rfl]
    exact mem_derivW
  have harith : 1 + u.length = u.length + 1 := by omega
  rcases (accept_ident hfold).2 with hacc | hacc
  · rw [hacc, if_pos (hmem.mp hacc), harith]
    rfl
  · have hnot : ¬ lowerL (c :: u) ∈ kwList := by
      intro hm
      have hcontra := hmem.mpr hm
      rw [hacc] at hcontra
      simp at hcontra
    rw [hacc, if_neg hnot, harith]
    rfl

theorem tokenize_run {input : List Nat} {sym : Sym}
    (h : scanOne input 0 = ScanRes.tok sym 0 input.length) :
    tokenize input =
      some ([⟨sym, 0, input.length⟩, ⟨Sym.endTok, input.length, input.length⟩], none) := by
  obtain ⟨_, hlt, _, _, _⟩ := scanOne_tok_facts h
  obtain ⟨m, hm⟩ : ∃ m, input.length = m + 1 := ⟨input.length - 1, by omega⟩
  have h2 : scanOne input 0 = ScanRes.tok sym 0 (m + 1) := by rw [← hm]; exact h
  rw [tokenize, hm, tokenizeAux]
  simp only [h2]
  rw [tokenizeAux]
  rw [show scanOne input (m + 1) = ScanRes.eofTok (m + 1) from scanOne_at_end (by omega)]
  simp

/-
The claims.
-/

/-- C1 (counterexample): on the input of spec Example 2, the predicted
outcome -- a comment and the identifier c followed by a stray star and
closing parenthesis that match no rule, i.e. a lexical error at offset 15
with only those two tokens -- is not what the machine produces, whatever
error kind the failure is given. -/
theorem c1_counterexample :
    tokenize exComment ≠ some ([⟨Sym.comment, 0, 12⟩, ⟨Sym.identifier, 13, 14⟩],
      some (15, LexErrKind.noMatchingRule)) ∧
    tokenize exComment ≠ some ([⟨Sym.comment, 0, 12⟩, ⟨Sym.identifier, 13, 14⟩],
      some (15, LexErrKind.unterminatedComment)) ∧
    tokenize exComment ≠ some ([⟨Sym.comment, 0, 12⟩, ⟨Sym.identifier, 13, 14⟩],
      some (15, LexErrKind.unterminatedString)) := by
  refine ⟨?_, ?_, ?_⟩ <;> decide!

/-- C1 (amended): the comment token ends at the first star-parenthesis
close, covering the text up to and including it; the following identifier
is c; and the stray star and closing parenthesis lex as an Operator and a
Punctuation token (block comments do not nest). -/
theorem c1_amended_theorem :
    tokenize exComment =
      some ([⟨Sym.comment, 0, 12⟩, ⟨Sym.identifier, 13, 14⟩, ⟨Sym.operator, 15, 16⟩,
        ⟨Sym.punctuation, 16, 17⟩, ⟨Sym.endTok, 17, 17⟩], none) ∧
    sliceCh exComment 0 12 = chars (r"(* a (* b *)") ∧
    sliceCh exComment 13 14 = chars (r"c") ∧
    sliceCh exComment 15 17 = chars (r"*)") := by
  refine ⟨?_, ?_, ?_, ?_⟩ <;> decide!

/-- C2 (counterexample): on input 12. the machine emits Number over the two
digits and then fails at the dot with no matching rule; no Operator or
Punctuation token is ever produced for the dot. -/
theorem c2_counterexample :
    tokenize exDot = some ([⟨Sym.number, 0, 2⟩], some (2, LexErrKind.noMatchingRule)) ∧
    (∀ t ∈ ([⟨Sym.number, 0, 2⟩] : List Token),
      t.sym ≠ Sym.operator ∧ t.sym ≠ Sym.punctuation) := by
  refine ⟨?_, ?_⟩ <;> decide!

/-- C2 (amended): at a scan position holding one or more digits followed by
a dot that is not followed by a digit, the Scanner emits a Number token
covering exactly the digits (never the dot), and the re-scan at the dot
fails with a no-matching-rule error at the dot offset rather than lexing
the dot as a Punctuation or Operator token. -/
theorem c2_amended_theorem :
    ∀ (input : List Nat) (pos : Nat) (ds rest : List Nat), ds ≠ [] →
      (∀ d ∈ ds, 48 ≤ d ∧ d ≤ 57) →
      input.drop pos = ds ++ 46 :: rest →
      (∀ d, rest.head? = some d → ¬(48 ≤ d ∧ d ≤ 57)) →
      scanOne input pos = ScanRes.tok Sym.number pos (pos + ds.length) ∧
      scanOne input (pos + ds.length) =
        ScanRes.err (pos + ds.length) LexErrKind.noMatchingRule := by
  intro input pos ds rest hne hds h hrest
  refine ⟨scanOne_numTrailingDot hne hds h hrest, ?_⟩
  apply scanOne_dotErr
  rw [← List.drop_drop, h, List.drop_left]

/-- C2 (witness): the amended statement at input 12. with digits 1 2. -/
theorem c2_witness :
    scanOne exDot 0 = ScanRes.tok Sym.number 0 (0 + ([49, 50] : List Nat).length) ∧
    scanOne exDot (0 + ([49, 50] : List Nat).length) =
      ScanRes.err (0 + ([49, 50] : List Nat).length) LexErrKind.noMatchingRule :=
  c2_amended_theorem exDot 0 [49, 50] [] (by decide) (by decide) (by decide) (by decide)

/-- C3 (counterexample): the run and is emitted as a Keyword token, not an
Identifier token. -/
theorem c3_counterexample :
    tokenize exAnd = some ([⟨Sym.keyword, 0, 3⟩, ⟨Sym.endTok, 3, 3⟩], none) ∧
    Sym.keyword ≠ Sym.identifier := by
  refine ⟨?_, ?_⟩ <;> decide!

/-- C3 (amended): an identifier-or-keyword run is classified Keyword when
its lowercasing is in the keyword table, and Identifier otherwise; the
token covers the whole run. -/
theorem c3_amended_theorem :
    ∀ w : List Nat, isIdentRun w = true →
      tokenize w = some ([⟨(if lowerL w ∈ kwList then Sym.keyword else Sym.identifier), 0,
        w.length⟩, ⟨Sym.endTok, w.length, w.length⟩], none) := by
  intro w hw
  cases w with
  | nil => exact (nomatch hw)
  | cons c u =>
    rw [isIdentRun, Bool.and_eq_true] at hw
    obtain ⟨hc, hu⟩ := hw
    have hu2 : ∀ d ∈ u, isAlnum d = true := List.all_eq_true.mp hu
    apply tokenize_run
    rw [show (c :: u).length = u.length + 1 from rfl]
    exact scanOne_identRun hc hu2

/-- C3 (witness): Foo is a run not in the table, so it is an Identifier. -/
theorem c3_witness :
    tokenize exFoo = some ([⟨(if lowerL exFoo ∈ kwList then Sym.keyword else Sym.identifier),
      0, exFoo.length⟩, ⟨Sym.endTok, exFoo.length, exFoo.length⟩], none) ∧
    (if lowerL exFoo ∈ kwList then Sym.keyword else Sym.identifier) = Sym.identifier :=
  ⟨c3_amended_theorem exFoo (by decide), by decide⟩

/-- C4: on any input that tokenizes without error, the emitted spans are
pairwise non-overlapping with strictly increasing starts, and concatenating
the whitespace gap before each token with the token span itself, in order,
rebuilds the input byte for byte; every gap is whitespace only. -/
theorem c4_theorem :
    ∀ (input : List Nat) (toks : List Token), tokenize input = some (toks, none) →
      toks.Pairwise (fun a b => a.tstop ≤ b.tstart ∧ a.tstart < b.tstart) ∧
      recon input 0 toks = input ∧ gapsWs input 0 toks := by
  intro input toks h
  obtain ⟨ts, htoks, hgood⟩ := tokenizeAux_good input (input.length + 1) 0 [] toks (by omega) h
  rw [htoks, List.nil_append]
  refine ⟨goodChain_pairwise input ts 0 hgood, ?_, goodChain_gaps input ts 0 hgood⟩
  rw [goodChain_recon input ts 0 hgood, List.drop_zero]

/-- C4 (witness): the reconstruction property at the input a b. -/
theorem c4_witness :
    ([⟨Sym.identifier, 0, 1⟩, ⟨Sym.identifier, 2, 3⟩, ⟨Sym.endTok, 3, 3⟩] :
        List Token).Pairwise (fun a b => a.tstop ≤ b.tstart ∧ a.tstart < b.tstart) ∧
      recon (chars (r"a b")) 0 [⟨Sym.identifier, 0, 1⟩, ⟨Sym.identifier, 2, 3⟩,
        ⟨Sym.endTok, 3, 3⟩] = chars (r"a b") ∧
      gapsWs (chars (r"a b")) 0 [⟨Sym.identifier, 0, 1⟩, ⟨Sym.identifier, 2, 3⟩,
        ⟨Sym.endTok, 3, 3⟩] :=
  c4_theorem (chars (r"a b"))
    [⟨Sym.identifier, 0, 1⟩, ⟨Sym.identifier, 2, 3⟩, ⟨Sym.endTok, 3, 3⟩] (by decide)

/-- C5: a double quote with no later closing quote (and no NUL, which also
ends the scan) fails with an unterminated-string error at the offset of the
opening quote; on the concrete input of spec Example 3 the error offset is
0 and the token sequence handed back with the error is empty. -/
theorem c5_theorem :
    (∀ (input : List Nat) (pos : Nat) (rest : List Nat), input.drop pos = 34 :: rest →
      (∀ c ∈ rest, c ≠ 34 ∧ c ≠ 0) →
      scanOne input pos = ScanRes.err pos LexErrKind.unterminatedString) ∧
    tokenize exStr = some ([], some (0, LexErrKind.unterminatedString)) := by
  refine ⟨fun input pos rest h hr => scanOne_untermString h hr, ?_⟩
  decide!

/-- C5 (witness): the unterminated string at a one character tail. -/
theorem c5_witness :
    scanOne (34 :: chars (r"x")) 0 = ScanRes.err 0 LexErrKind.unterminatedString ∧
    tokenize exStr = some ([], some (0, LexErrKind.unterminatedString)) :=
  ⟨c5_theorem.1 (34 :: chars (r"x")) 0 (chars (r"x")) (by decide) (by decide), c5_theorem.2⟩

/-- C6: two dashes start a line comment token (not two Operator tokens)
running to end of line or end of input and never including the newline; on
the input of spec Example 1 the whole input is one Comment token, and with
a newline present the comment stops before it. -/
theorem c6_theorem :
    (∀ (input : List Nat) (pos : Nat) (rest : List Nat), input.drop pos = 45 :: 45 :: rest →
      scanOne input pos = ScanRes.tok Sym.comment pos (pos + (2 + lineLen rest))) ∧
    tokenize exLine = some ([⟨Sym.comment, 0, 8⟩, ⟨Sym.endTok, 8, 8⟩], none) ∧
    tokenize [45, 45, 97, 10, 98] = some ([⟨Sym.comment, 0, 3⟩, ⟨Sym.identifier, 4, 5⟩,
      ⟨Sym.endTok, 5, 5⟩], none) := by
  refine ⟨fun input pos rest h => scanOne_dashDash h, ?_, ?_⟩ <;> decide!

/-- C6 (witness): a line comment over the input consisting of two dashes
and one letter. -/
theorem c6_witness :
    scanOne (chars (r"--x")) 0 =
      ScanRes.tok Sym.comment 0 (0 + (2 + lineLen (chars (r"x")))) :=
  c6_theorem.1 (chars (r"--x")) 0 (chars (r"x")) (by decide)

/-- C7: the input of spec Example 4 yields Number, Identifier, the
two-character compound Operator, Number, then the end token, with the
expected texts under each span. -/
theorem c7_theorem :
    tokenize exNum =
      some ([⟨Sym.number, 0, 4⟩, ⟨Sym.identifier, 5, 8⟩, ⟨Sym.operator, 9, 11⟩,
        ⟨Sym.number, 12, 13⟩, ⟨Sym.endTok, 13, 13⟩], none) ∧
    sliceCh exNum 0 4 = chars (r"12.5") ∧ sliceCh exNum 5 8 = chars (r"foo") ∧
    sliceCh exNum 9 11 = chars (r"<=") ∧ sliceCh exNum 12 13 = chars (r"3") := by
  refine ⟨?_, ?_, ?_, ?_, ?_⟩ <;> decide!

/-- C8: two inputs that differ only by swapping the case of letters
tokenize to exactly the same result (same kinds, same spans, same errors),
and Foo is a single Identifier token whose span carries the original text
with case preserved. -/
theorem c8_theorem :
    (∀ u v : List Nat, caseSwapL u v = true → tokenize u = tokenize v) ∧
    tokenize exFoo = some ([⟨Sym.identifier, 0, 3⟩, ⟨Sym.endTok, 3, 3⟩], none) ∧
    sliceCh exFoo 0 3 = exFoo := by
  refine ⟨tokenize_caseSwap, ?_, ?_⟩ <;> decide!

/-- C8 (witness): Foo and fOO tokenize identically. -/
theorem c8_witness : tokenize (chars (r"Foo")) = tokenize (chars (r"fOO")) :=
  c8_theorem.1 (chars (r"Foo")) (chars (r"fOO")) (by decide)

/-- C9: tokenization always terminates with a result (the fuel bound of one
more than the input length is never exhausted); every scan returning a
token other than the end token consumes at least one character past the
token start; and the end token appears exactly once on success and never on
a failed tokenization. -/
theorem c9_theorem :
    ∀ input : List Nat,
      (tokenize input).isSome = true ∧
      (∀ (pos : Nat) (sym : Sym) (s e : Nat), scanOne input pos = ScanRes.tok sym s e →
        pos ≤ s ∧ s < e ∧ sym ≠ Sym.endTok) ∧
      (∀ (toks : List Token) (errv : Option (Nat × LexErrKind)),
        tokenize input = some (toks, errv) →
        endCount toks = if errv = none then 1 else 0) := by
  intro input
  refine ⟨tokenize_isSome input, ?_, ?_⟩
  · intro pos sym s e h
    obtain ⟨h1, h2, _, h4, _⟩ := scanOne_tok_facts h
    exact ⟨h1, h2, h4⟩
  · intro toks errv h
    have hcount := tokenizeAux_endCount input (input.length + 1) 0 [] toks errv h
    simpa [endCount, List.countP_nil] using hcount

/-- C9 (witness): the three parts at the one letter input a. -/
theorem c9_witness :
    (tokenize (chars (r"a"))).isSome = true ∧
    (0 ≤ 0 ∧ 0 < 1 ∧ Sym.identifier ≠ Sym.endTok) ∧
    endCount [⟨Sym.identifier, 0, 1⟩, ⟨Sym.endTok, 1, 1⟩] =
      if (none : Option (Nat × LexErrKind)) = none then 1 else 0 :=
  ⟨(c9_theorem (chars (r"a"))).1,
   (c9_theorem (chars (r"a"))).2.1 0 Sym.identifier 0 1 (by decide),
   (c9_theorem (chars (r"a"))).2.2 [⟨Sym.identifier, 0, 1⟩, ⟨Sym.endTok, 1, 1⟩] none
     (by decide)⟩

/-- C10: a hash not followed by an exclamation mark begins no token: the
scan fails with a no-matching-rule error at the hash; with the exclamation
mark present the hash starts a line comment token. -/
theorem c10_theorem :
    (∀ (input : List Nat) (pos : Nat) (rest : List Nat), input.drop pos = 35 :: rest →
      rest.head? ≠ some 33 → scanOne input pos = ScanRes.err pos LexErrKind.noMatchingRule) ∧
    (∀ (input : List Nat) (pos : Nat) (rest : List Nat), input.drop pos = 35 :: 33 :: rest →
      scanOne input pos = ScanRes.tok Sym.comment pos (pos + (2 + lineLen rest))) ∧
    tokenize exHash = some ([], some (0, LexErrKind.noMatchingRule)) := by
  refine ⟨fun input pos rest h hr => scanOne_hashErr h hr,
    fun input pos rest h => scanOne_hashBang h, ?_⟩
  decide!

/-- C10 (witness): the hash error at input #x and the comment at #!x. -/
theorem c10_witness :
    scanOne exHash 0 = ScanRes.err 0 LexErrKind.noMatchingRule ∧
    scanOne (chars (r"#!x")) 0 =
      ScanRes.tok Sym.comment 0 (0 + (2 + lineLen (chars (r"x")))) :=
  ⟨c10_theorem.1 exHash 0 (chars (r"x")) (by decide) (by decide),
   c10_theorem.2.1 (chars (r"#!x")) 0 (chars (r"x")) (by decide)⟩

end ASLex
